import Mathlib

/-
  Verification of the data pipeline of the Streamlit sales-performance dashboard
  (app.py).  The pipeline stages embedded here are, in source order:

  * standardize_columns (app.py 43-50): trim and uppercase every column label,
    then rename the known space-separated labels to underscore labels.
  * preprocess (app.py 64-105): numeric coercion of the sales columns
    (pd.to_numeric with errors="coerce"), coalescing of dual-named columns,
    zero-fill of missing sales, and the MONTH_YEAR period-key construction
    (coercion of YEAR/MONTH to Int64, dropna, pd.to_datetime + to_period("M")).
  * the sidebar filter construction (app.py 145-166) and the filter
    application (app.py 168-175).
  * kpi_block (app.py 108-119).

  Tables are modelled as a column-name list plus a row list; every cell is a
  missing value (NaN / NA), a string, or a number.  Numbers are modelled as
  exact rationals: the program only sums, groups and averages decimal values,
  and no claim is about float rounding.  Fallible pandas operations (KeyError
  on a missing column, ValueError from pd.to_datetime, TypeError from
  astype("Int64")) are modelled with Except.
-/

namespace SalesDash

/-- One cell of a DataFrame: missing (NaN/NA), a string, or a number. -/
inductive Val where
  | na : Val
  | str : String → Val
  | num : ℚ → Val
  deriving DecidableEq

/-- A DataFrame: ordered column labels and rows of cells.  Row `r` holds the
cell of column `cols[i]` at position `i`. -/
structure Table where
  cols : List String
  rows : List (List Val)
  deriving DecidableEq

/-- A table is rectangular: every row has exactly one cell per column.  Every
pandas DataFrame satisfies this. -/
def Rect (t : Table) : Prop := ∀ r ∈ t.rows, r.length = t.cols.length

instance (t : Table) : Decidable (Rect t) := List.decidableBAll _ t.rows

/-- The whitespace characters removed by Python str.strip (ASCII part). -/
def pySpace (c : Char) : Bool :=
  decide (c.toNat = 32 ∨ c.toNat = 9 ∨ c.toNat = 10 ∨ c.toNat = 13 ∨
    c.toNat = 11 ∨ c.toNat = 12)

/-- One character of Python str.upper, restricted to ASCII (the column labels
of this dataset are ASCII). -/
def pyCharUpper (c : Char) : Char :=
  if 97 ≤ c.toNat ∧ c.toNat ≤ 122 then Char.ofNat (c.toNat - 32) else c

/-- Python str.upper. -/
def pyUpper (s : String) : String := String.mk (s.data.map pyCharUpper)

/-- Drop leading and trailing whitespace from a character list. -/
def stripData (l : List Char) : List Char :=
  ((l.dropWhile pySpace).reverse.dropWhile pySpace).reverse

/-- Python str.strip. -/
def pyStrip (s : String) : String := String.mk (stripData s.data)

/-- `c.strip().upper()` applied to a column label (app.py line 44). -/
def pyNorm (s : String) : String := pyUpper (pyStrip s)

/-- RENAME_MAP of app.py lines 33-40. -/
def RENAME_MAP : List (String × String) :=
  [("ITEM CODE", "ITEM_CODE"),
   ("ITEM DESCRIPTION", "ITEM_DESCRIPTION"),
   ("ITEM TYPE", "ITEM_TYPE"),
   ("RETAIL SALES", "RETAIL_SALES"),
   ("RETAIL TRANSFERS", "RETAIL_TRANSFERS"),
   ("WAREHOUSE SALES", "WAREHOUSE_SALES")]

/-- The canonical schema after normalization (spec section 3). -/
def CANONICAL_SCHEMA : List String :=
  ["YEAR", "MONTH", "SUPPLIER", "ITEM_CODE", "ITEM_DESCRIPTION", "ITEM_TYPE",
   "RETAIL_SALES", "RETAIL_TRANSFERS", "WAREHOUSE_SALES", "MONTH_YEAR"]

/-- `df.rename(columns={old: target})`: replace every column label equal to
`old` by `target`; applied only when `old` is present (app.py lines 47-49),
although renaming an absent label is a no-op anyway. -/
def renameCol (old target : String) (cols : List String) : List String :=
  if old ∈ cols then cols.map (fun c => if c = old then target else c) else cols

/-- standardize_columns (app.py 43-50): uppercase and trim every label, then
apply the fixed renames.  Row values are untouched. -/
def standardize_columns (t : Table) : Table :=
  { cols := RENAME_MAP.foldl (fun cs p => renameCol p.1 p.2 cs) (t.cols.map pyNorm),
    rows := t.rows }

/-- The state of the ARGUMENT of standardize_columns after the call returns.
The source mutates its argument: `df.columns = cols` and
`df.rename(..., inplace=True)` act on the frame that was passed in, which is
also the returned object, so the caller sees the renamed table. -/
def standardize_columns_argAfter (t : Table) : Table := standardize_columns t

/-- The label substitution a successful rename performs on one label. -/
def substLabel (old target c : String) : String := if c = old then target else c

/-- A rename table applied to one label, first entry first. -/
def applyRenames (ps : List (String × String)) (s : String) : String :=
  ps.foldl (fun c p => substLabel p.1 p.2 c) s

/-- Is `c` an ASCII digit. -/
def isDigitCh (c : Char) : Bool := 48 ≤ c.toNat && c.toNat ≤ 57

/-- Value of a digit run (most significant first). -/
def digitsVal (cs : List Char) : Nat := cs.foldl (fun a c => a * 10 + (c.toNat - 48)) 0

/-- Decimal parser modelling pd.to_numeric / Python float on the cell shapes
this dataset produces: optional sign, integer digits, optional fractional
digits.  Anything else fails to parse. -/
def parseDec (s : String) : Option ℚ :=
  let sgn : Bool × List Char :=
    match s.data with
    | '-' :: rest => (true, rest)
    | '+' :: rest => (false, rest)
    | cs => (false, cs)
  let ip := sgn.2.takeWhile isDigitCh
  let rest := sgn.2.drop ip.length
  let core : Option ℚ :=
    match rest with
    | [] => if ip.isEmpty then none else some ((digitsVal ip : ℚ))
    | '.' :: fp =>
        if fp.all isDigitCh && !(ip.isEmpty && fp.isEmpty) then
          some ((digitsVal ip : ℚ) + (digitsVal fp : ℚ) / ((10 : ℚ) ^ fp.length))
        else none
    | _ => none
  core.map (fun q => if sgn.1 then -q else q)

/-- Python int() on a (stripped) string: optional sign, digits. -/
def parseIntStr (s : String) : Option Int :=
  let sgn : Bool × List Char :=
    match (pyStrip s).data with
    | '-' :: rest => (true, rest)
    | '+' :: rest => (false, rest)
    | cs => (false, cs)
  if sgn.2.isEmpty || !(sgn.2.all isDigitCh) then none
  else some (if sgn.1 then -(digitsVal sgn.2 : Int) else (digitsVal sgn.2 : Int))

/-- pd.to_numeric(v, errors="coerce") on one cell: numbers pass through,
parseable strings become numbers, everything else becomes missing. -/
def to_num (v : Val) : Val :=
  match v with
  | .num q => .num q
  | .na => .na
  | .str s => match parseDec s with
      | some q => .num q
      | none => .na

/-- Series.fillna(0) on one cell. -/
def fillna0 (v : Val) : Val :=
  match v with
  | .na => .num 0
  | w => w

/-- The numeric content of a cell; non-numeric cells contribute 0, which is
how a pandas sum (skipna=True) treats missing values. -/
def valNum (v : Val) : ℚ :=
  match v with
  | .num q => q
  | _ => 0

/-- Series.sum() over a column, skipping missing values. -/
def pdSum (l : List Val) : ℚ := (l.map valNum).sum

/-- Python str() of a cell, as used by `.astype(str)`: NaN prints as "nan".
The number rendering abstracts the float repr; filter membership only ever
compares pyStr against pyStr, so the exact rendering is immaterial. -/
def pyStr (v : Val) : String :=
  match v with
  | .na => "nan"
  | .str s => s
  | .num q => if q.den = 1 then toString q.num ++ ".0" else toString q

/-- Index of the first column with label `c`; the length of the list when the
label is absent (the convention of List.indexOf). -/
def idxOf : List String → String → Nat
  | [], _ => 0
  | c :: cs, x => if c = x then 0 else idxOf cs x + 1

/-- The cell of column `c` in row `r` of table `t`. -/
def cellAt (t : Table) (c : String) (r : List Val) : Val := r.getD (idxOf t.cols c) Val.na

/-- The column of label `c` as a list of cells, one per row. -/
def column (t : Table) (c : String) : List Val := t.rows.map (cellAt t c)

/-- `df[c] = f(df[c])`: replace the cells of column `c` pointwise. -/
def mapCol (t : Table) (c : String) (f : Val → Val) : Table :=
  { cols := t.cols,
    rows := t.rows.map (fun r => r.set (idxOf t.cols c) (f (cellAt t c r))) }

/-- One iteration of a guarded column-update loop:
`if c in df.columns: df[c] = f(df[c])`. -/
def stepCol (f : Val → Val) (tb : Table) (c : String) : Table :=
  if c ∈ tb.cols then mapCol tb c f else tb

/-- The coercion loop of preprocess (app.py 71-74): for each listed label, if
the column is present, coerce it with pd.to_numeric(errors="coerce").  The
label list is copied verbatim, duplicate entry included. -/
def coerceNumericCols (t : Table) : Table :=
  ["RETAIL_SALES", "RETAIL TRANSFERS", "RETAIL_TRANSFERS", "WAREHOUSE_SALES",
   "RETAIL SALES", "RETAIL TRANSFERS", "WAREHOUSE SALES"].foldl (stepCol to_num) t

/-- One conditional coalescing rename of preprocess (app.py 77-82): rename
`old` to `target` when `old` is present and `target` is absent. -/
def renameIf (t : Table) (old target : String) : Table :=
  if old ∈ t.cols ∧ target ∉ t.cols then
    { cols := t.cols.map (fun c => if c = old then target else c), rows := t.rows }
  else t

/-- The three coalescing renames of preprocess (app.py 76-82). -/
def coalesceCols (t : Table) : Table :=
  renameIf (renameIf (renameIf t "RETAIL SALES" "RETAIL_SALES")
    "RETAIL TRANSFERS" "RETAIL_TRANSFERS") "WAREHOUSE SALES" "WAREHOUSE_SALES"

/-- The zero-fill loop of preprocess (app.py 89-92).  The preceding
astype("category") loop (85-87) does not change any cell value and is
therefore not represented. -/
def fillSales (t : Table) : Table :=
  ["RETAIL_SALES", "RETAIL_TRANSFERS", "WAREHOUSE_SALES"].foldl (stepCol fillna0) t

/-- preprocess up to (and excluding) the MONTH_YEAR block: app.py 65-92. -/
def clean_stage (t : Table) : Table :=
  fillSales (coalesceCols (coerceNumericCols (standardize_columns t)))

/-- `pd.to_numeric(v, errors="coerce").astype("Int64")` on one cell:
missing stays missing, an integral number passes, a non-integral number makes
astype raise a TypeError. -/
def toInt64 (v : Val) : Except String Val :=
  match to_num v with
  | .na => .ok .na
  | .num q =>
      if q.den = 1 then .ok (.num q)
      else .error "TypeError: cannot safely cast non-equivalent values to Int64"
  | .str s => .ok (.str s)

/-- Coerce a whole column with toInt64; any failing cell aborts, as a pandas
astype on a Series does. -/
def coerceIntCol (t : Table) (c : String) : Except String Table := do
  let rws ← t.rows.mapM (fun r => (toInt64 (cellAt t c r)).map (fun v => r.set (idxOf t.cols c) v))
  .ok { cols := t.cols, rows := rws }

/-- `df.dropna(subset=["YEAR", "MONTH"])` (app.py line 100). -/
def dropnaYM (t : Table) : Table :=
  { cols := t.cols,
    rows := t.rows.filter (fun r =>
      !(cellAt t "YEAR" r == Val.na) && !(cellAt t "MONTH" r == Val.na)) }

/-- Whether pd.to_datetime(dict(year=y, month=m, day=1)) succeeds: the month
must be 1-12 and the first-of-month date must lie inside the pandas Timestamp
range (1677-09-21 .. 2262-04-11, so months 1677-10 .. 2262-04); otherwise the
assembly raises. -/
def tsOK (y m : Int) : Bool :=
  1 ≤ m && m ≤ 12 && (1677 < y || (y == 1677 && 10 ≤ m)) &&
    (y < 2262 || (y == 2262 && m ≤ 4))

/-- Zero-padded two-digit month. -/
def pad2 (m : Int) : String := if m < 10 then "0" ++ toString m else toString m

/-- The to_period("M") string of a first-of-month date, e.g. "2023-01". -/
def periodStr (y m : Int) : String := toString y ++ "-" ++ pad2 m

/-- The integer of an integral numeric cell. -/
def getInt (v : Val) : Option Int :=
  match v with
  | .num q => if q.den = 1 then some q.num else none
  | _ => none

/-- The MONTH_YEAR labels of app.py 101-103: build the first-of-month date of
each row and render it at month granularity; an unassemblable date raises.
After the dropna both cells are non-missing Int64 values, so the catch-all
arm (a non-integer reaching .astype(int)) also raises. -/
def monthYearVals (t : Table) : Except String (List Val) :=
  t.rows.mapM (fun r =>
    match getInt (cellAt t "YEAR" r), getInt (cellAt t "MONTH" r) with
    | some y, some m =>
        if tsOK y m then .ok (Val.str (periodStr y m))
        else .error "ValueError: cannot assemble the datetimes"
    | _, _ => .error "ValueError: cannot assemble the datetimes")

/-- `df[c] = vals`: overwrite column `c` when present, else append it. -/
def setCol (t : Table) (c : String) (vals : List Val) : Table :=
  if c ∈ t.cols then
    { cols := t.cols, rows := (t.rows.zip vals).map (fun p => p.1.set (idxOf t.cols c) p.2) }
  else
    { cols := t.cols ++ [c], rows := (t.rows.zip vals).map (fun p => p.1 ++ [p.2]) }

/-- The MONTH_YEAR block of preprocess (app.py 94-103): only runs when both
YEAR and MONTH are present; coerces both to Int64, drops rows where either is
missing, then assembles the period label. -/
def periodStage (t : Table) : Except String Table :=
  if "YEAR" ∈ t.cols ∧ "MONTH" ∈ t.cols then do
    let t1 ← coerceIntCol t "YEAR"
    let t2 ← coerceIntCol t1 "MONTH"
    let t3 := dropnaYM t2
    let vals ← monthYearVals t3
    .ok (setCol t3 "MONTH_YEAR" vals)
  else .ok t

/-- preprocess (app.py 64-105). -/
def preprocess (t : Table) : Except String Table := periodStage (clean_stage t)

/-- The argument of preprocess after the call: preprocess works on
`df.copy()` (app.py line 65), so the frame passed in is unchanged. -/
def preprocess_argAfter (t : Table) : Table := t

/-- The "Total ..." KPI of kpi_block (app.py 110-112):
`float(filtered.get(c, pd.Series([0])).sum())`. -/
def total_kpi (t : Table) (c : String) : ℚ :=
  if c ∈ t.cols then pdSum (column t c) else pdSum [Val.num 0]

/-- The group keys of `filtered.groupby("MONTH_YEAR")`: the distinct
non-missing values of the column (groupby drops NaN keys). -/
def monthKeys (t : Table) : List Val :=
  ((column t "MONTH_YEAR").filter (fun v => !(v == Val.na))).dedup

/-- The summed RETAIL_SALES of one MONTH_YEAR group. -/
def groupRetailSum (t : Table) (k : Val) : ℚ :=
  pdSum ((t.rows.filter (fun r => cellAt t "MONTH_YEAR" r == k)).map (cellAt t "RETAIL_SALES"))

/-- `filtered.groupby("MONTH_YEAR")["RETAIL_SALES"].sum()` (app.py 115). -/
def monthlyTotals (t : Table) : List ℚ := (monthKeys t).map (groupRetailSum t)

/-- `float(monthly.mean()) if len(monthly) else 0.0` (app.py 116). -/
def avgMonthly (t : Table) : ℚ :=
  if (monthlyTotals t).length ≠ 0 then
    (monthlyTotals t).sum / ((monthlyTotals t).length : ℚ)
  else 0

/-- kpi_block (app.py 108-119).  The groupby column selection
`filtered.groupby("MONTH_YEAR")["RETAIL_SALES"]` raises a KeyError when
RETAIL_SALES is absent, which Except captures. -/
def kpi_block (t : Table) : Except String (List (String × ℚ)) :=
  let k1 := total_kpi t "RETAIL_SALES"
  let k2 := total_kpi t "RETAIL_TRANSFERS"
  let k3 := total_kpi t "WAREHOUSE_SALES"
  if "MONTH_YEAR" ∈ t.cols then
    if "RETAIL_SALES" ∈ t.cols then
      .ok [("Total Retail Sales", k1), ("Total Retail Transfers", k2),
           ("Total Warehouse Sales", k3), ("Avg Monthly Retail Sales", avgMonthly t)]
    else .error "KeyError: Columns not found RETAIL_SALES"
  else
    .ok [("Total Retail Sales", k1), ("Total Retail Transfers", k2),
         ("Total Warehouse Sales", k3), ("Avg Monthly Retail Sales", 0)]

/-- kpi_block only reads the table passed to it. -/
def kpi_block_argAfter (t : Table) : Table := t

/-- `filtered["YEAR"].isin(year_sel)` on one cell: pandas isin with a Python
int list matches by numeric equality. -/
def yearMatch (v : Val) (ysel : List Int) : Bool := ysel.any (fun y => v == Val.num (y : ℚ))

/-- `filtered[c].astype(str).isin(sel)` on one cell. -/
def strMatch (v : Val) (sel : List String) : Bool := sel.contains (pyStr v)

/-- Boolean-mask row selection: keeps row order and every column. -/
def filterRows (t : Table) (p : List Val → Bool) : Table :=
  { cols := t.cols, rows := t.rows.filter p }

/-- The filter application of app.py 168-175.  The year filter indexes
`filtered["YEAR"]` without a presence guard, so a non-empty year selection on
a table without a YEAR column raises a KeyError; the supplier and item-type
filters are guarded by a column-presence check. -/
def apply_filters (t : Table) (ysel : List Int) (ssel tsel : List String) :
    Except String Table := do
  let t1 ←
    if ysel = [] then .ok t
    else if "YEAR" ∈ t.cols then
      .ok (filterRows t (fun r => yearMatch (cellAt t "YEAR" r) ysel))
    else .error "KeyError: YEAR"
  let t2 :=
    if ssel ≠ [] ∧ "SUPPLIER" ∈ t1.cols then
      filterRows t1 (fun r => strMatch (cellAt t1 "SUPPLIER" r) ssel)
    else t1
  let t3 :=
    if tsel ≠ [] ∧ "ITEM_TYPE" ∈ t2.cols then
      filterRows t2 (fun r => strMatch (cellAt t2 "ITEM_TYPE" r) tsel)
    else t2
  .ok t3

/-- The filter step builds new frames from `_df.copy()`; its argument is
unchanged after it returns. -/
def apply_filters_argAfter (t : Table) : Table := t

/-- Insert into a sorted list (ascending by `le`). -/
def insertLe {A : Type} (le : A -> A -> Bool) (a : A) : List A -> List A
  | [] => [a]
  | b :: l => if le a b then a :: b :: l else b :: insertLe le a l

/-- Insertion sort; the result of Python sorted() for a total order. -/
def sortLe {A : Type} (le : A -> A -> Bool) : List A -> List A
  | [] => []
  | a :: l => insertLe le a (sortLe le l)

/-- Python int() on a cell, as used on the year options (app.py line 149):
floats truncate toward zero, strings must parse, NA raises. -/
def pyInt (v : Val) : Except String Int :=
  match v with
  | .num q => .ok (q.num.tdiv (q.den : Int))
  | .str s =>
      match parseIntStr s with
      | some n => .ok n
      | none => .error "ValueError: invalid literal for int"
  | .na => .error "ValueError: cannot convert NA to integer"

/-- The year options of the sidebar (app.py 148-152):
`sorted([int(x) for x in _df["YEAR"].dropna().unique()])`, and the empty
selection when the column is absent. -/
def observedYears (t : Table) : Except String (List Int) :=
  if "YEAR" ∈ t.cols then
    (((column t "YEAR").filter (fun v => !(v == Val.na))).dedup.mapM pyInt).map
      (sortLe (fun a b => decide (a ≤ b)))
  else .ok []

/-- The supplier / item-type options of the sidebar (app.py 154-166):
`sorted(list(_df[c].astype(str).unique()))`, empty when the column is absent. -/
def observedStrs (t : Table) (c : String) : List String :=
  if c ∈ t.cols then sortLe (fun a b => decide (a ≤ b)) ((column t c).map pyStr).dedup
  else []

/-- Running the filter block with the full selection: every observed year,
every observed supplier, every observed item type selected. -/
def filtered_full_selection (t : Table) : Except String Table :=
  (observedYears t).bind
    (fun ys => apply_filters t ys (observedStrs t "SUPPLIER") (observedStrs t "ITEM_TYPE"))

/-- The row predicate the spec assigns to the Filter Engine: for each
dimension whose selection is non-empty, the row value (string form for
supplier and item type, numeric for year) is a member of the selection;
empty selections constrain nothing; dimensions compose by AND. -/
def rowPass (t : Table) (ysel : List Int) (ssel tsel : List String) (r : List Val) : Bool :=
  (ysel.isEmpty || yearMatch (cellAt t "YEAR" r) ysel) &&
    (ssel.isEmpty || strMatch (cellAt t "SUPPLIER" r) ssel) &&
    (tsel.isEmpty || strMatch (cellAt t "ITEM_TYPE" r) tsel)

/-- Is the cell a (non-missing) number. -/
def isNum (v : Val) : Bool :=
  match v with
  | .num _ => true
  | _ => false

/-- Is the cell a number or missing (nothing left unparsed). -/
def numOrNa (v : Val) : Bool :=
  match v with
  | .str _ => false
  | _ => true

/-- Is the cell an integral number (an Int64 cell). -/
def intCell (v : Val) : Bool :=
  match v with
  | .num q => q.den == 1
  | _ => false

/-- A cell astype("Int64") accepts: missing, or an integral number. -/
def int64OK (v : Val) : Bool :=
  match to_num v with
  | .na => true
  | .num q => q.den == 1
  | .str _ => false

/-- A YEAR cell acceptable to the period builder: missing, or an integral
number whose year lies strictly inside the pandas Timestamp range. -/
def yearOKcell (v : Val) : Bool :=
  match to_num v with
  | .na => true
  | .num q => q.den == 1 && decide (1678 ≤ q.num) && decide (q.num ≤ 2261)
  | .str _ => false

/-- A MONTH cell acceptable to the period builder: missing, or an integral
number in 1..12. -/
def monthOKcell (v : Val) : Bool :=
  match to_num v with
  | .na => true
  | .num q => q.den == 1 && decide (1 ≤ q.num) && decide (q.num ≤ 12)
  | .str _ => false

/-- Spec-side description of the (amended) Period Key Builder contract:
coerce YEAR and MONTH, drop every row where either is missing, and append to
each surviving row the MONTH_YEAR period label built from its year and
month. -/
def periodExpected (t : Table) : Table :=
  let t2 := mapCol (mapCol t "YEAR" to_num) "MONTH" to_num
  let t3 := dropnaYM t2
  setCol t3 "MONTH_YEAR" (t3.rows.map (fun r =>
    Val.str (periodStr ((getInt (cellAt t3 "YEAR" r)).getD 0)
      ((getInt (cellAt t3 "MONTH" r)).getD 0))))

/-- Every cell of column `c` satisfies `P`. -/
def colAll (P : Val → Bool) (t : Table) (c : String) : Prop :=
  ∀ v ∈ column t c, P v = true

/-- The integer a numeric cell truncates to (the value pyInt succeeds with). -/
def intOf (v : Val) : Int :=
  match v with
  | .num q => q.num.tdiv (q.den : Int)
  | _ => 0

deriving instance DecidableEq for Except

/-! Helper lemmas: Python string normalization. -/

theorem char_toNat_ofNat {n : Nat} (h : n < 55296) : (Char.ofNat n).toNat = n := by
  unfold Char.ofNat
  rw [dif_pos (Or.inl h : n.isValidChar)]
  rfl

theorem pyCharUpper_idem (c : Char) : pyCharUpper (pyCharUpper c) = pyCharUpper c := by
  unfold pyCharUpper
  by_cases h : 97 ≤ c.toNat ∧ c.toNat ≤ 122
  · rw [if_pos h]
    have hn : (Char.ofNat (c.toNat - 32)).toNat = c.toNat - 32 :=
      char_toNat_ofNat (by omega)
    rw [if_neg (by omega : ¬(97 ≤ (Char.ofNat (c.toNat - 32)).toNat ∧
      (Char.ofNat (c.toNat - 32)).toNat ≤ 122))]
  · rw [if_neg h, if_neg h]

theorem pySpace_upper (c : Char) : pySpace (pyCharUpper c) = pySpace c := by
  unfold pyCharUpper
  by_cases h : 97 ≤ c.toNat ∧ c.toNat ≤ 122
  · rw [if_pos h]
    have hn : (Char.ofNat (c.toNat - 32)).toNat = c.toNat - 32 :=
      char_toNat_ofNat (by omega)
    unfold pySpace
    rw [hn, decide_eq_false (by omega), decide_eq_false (by omega)]
  · rw [if_neg h]

theorem pySpace_comp_upper : pySpace ∘ pyCharUpper = pySpace := funext pySpace_upper

theorem dropWhile_head_false {α : Type} (p : α → Bool) (l : List α) (a : α) (t : List α)
    (h : l.dropWhile p = a :: t) : p a = false := by
  induction l with
  | nil => simp at h
  | cons b l ih =>
    by_cases hb : p b = true
    · rw [List.dropWhile_cons, if_pos hb] at h
      exact ih h
    · rw [List.dropWhile_cons, if_neg hb] at h
      cases h
      simpa using hb

theorem dropWhile_self_idem {α : Type} (p : α → Bool) (l : List α) :
    (l.dropWhile p).dropWhile p = l.dropWhile p := by
  cases h : l.dropWhile p with
  | nil => rfl
  | cons a t =>
    rw [List.dropWhile_cons, if_neg (by simp [dropWhile_head_false p l a t h])]

theorem dropWhile_append_singleton {α : Type} (p : α → Bool) (l : List α) (a : α)
    (h : p a = false) : (l ++ [a]).dropWhile p = l.dropWhile p ++ [a] := by
  rw [List.dropWhile_append]
  by_cases he : (l.dropWhile p).isEmpty = true
  · rw [if_pos he, List.dropWhile_cons, if_neg (by simp [h]), List.isEmpty_iff.mp he]
    rfl
  · rw [if_neg he]

theorem stripData_idem (l : List Char) : stripData (stripData l) = stripData l := by
  unfold stripData
  cases h : l.dropWhile pySpace with
  | nil => simp
  | cons a t =>
    have ha : pySpace a = false := dropWhile_head_false _ _ _ _ h
    have hX : (List.dropWhile pySpace (a :: t).reverse).reverse =
        a :: (List.dropWhile pySpace t.reverse).reverse := by
      rw [List.reverse_cons, dropWhile_append_singleton _ _ _ ha, List.reverse_append]
      simp
    rw [hX, List.dropWhile_cons, if_neg (by simp [ha]), List.reverse_cons,
      List.reverse_reverse, dropWhile_append_singleton _ _ _ ha, dropWhile_self_idem,
      List.reverse_append]
    simp

theorem stripData_map_upper (l : List Char) :
    stripData (l.map pyCharUpper) = (stripData l).map pyCharUpper := by
  unfold stripData
  rw [List.dropWhile_map, pySpace_comp_upper, ← List.map_reverse, List.dropWhile_map,
    pySpace_comp_upper, List.map_reverse]

theorem pyNorm_idem (s : String) : pyNorm (pyNorm s) = pyNorm s := by
  unfold pyNorm pyUpper pyStrip
  apply congrArg String.mk
  show ((stripData ((stripData s.data).map pyCharUpper)).map pyCharUpper) = _
  rw [stripData_map_upper, stripData_idem, List.map_map]
  exact List.map_congr_left (fun c _ => pyCharUpper_idem c)

/-! Helper lemmas: the Schema Normalizer. -/

theorem renameCol_eq_map (old target : String) (cols : List String) :
    renameCol old target cols = cols.map (substLabel old target) := by
  unfold renameCol substLabel
  by_cases h : old ∈ cols
  · rw [if_pos h]
  · rw [if_neg h]
    symm
    calc cols.map (fun c => if c = old then target else c)
        = cols.map id := List.map_congr_left (fun a ha => by
          have hne : a ≠ old := fun hae => h (hae ▸ ha)
          simp [hne])
      _ = cols := List.map_id cols

theorem applyRenames_cons (p : String × String) (ps : List (String × String)) (s : String) :
    applyRenames (p :: ps) s = applyRenames ps (substLabel p.1 p.2 s) := rfl

theorem map_map_lam {α β γ : Type} (f : α → β) (g : β → γ) (l : List α) :
    (l.map f).map g = l.map (fun a => g (f a)) := by
  rw [List.map_map]
  exact List.map_congr_left (fun a _ => rfl)

theorem foldRename (ps : List (String × String)) (cs : List String) :
    ps.foldl (fun l p => renameCol p.1 p.2 l) cs = cs.map (applyRenames ps) := by
  induction ps generalizing cs with
  | nil =>
    show cs = cs.map (applyRenames [])
    symm
    calc cs.map (applyRenames []) = cs.map id := List.map_congr_left (fun a _ => rfl)
      _ = cs := List.map_id cs
  | cons p ps ih =>
    rw [List.foldl_cons, ih, renameCol_eq_map, map_map_lam]
    exact List.map_congr_left (fun a _ => (applyRenames_cons p ps a).symm)

theorem standardize_columns_def (t : Table) : standardize_columns t =
    { cols := RENAME_MAP.foldl (fun cs p => renameCol p.1 p.2 cs) (t.cols.map pyNorm),
      rows := t.rows } := rfl

theorem standardize_eq (t : Table) : standardize_columns t =
    { cols := t.cols.map (fun c => applyRenames RENAME_MAP (pyNorm c)), rows := t.rows } := by
  rw [standardize_columns_def]
  congr 1
  rw [foldRename, map_map_lam]

theorem standardize_cols_eq (t : Table) :
    (standardize_columns t).cols = t.cols.map (fun c => applyRenames RENAME_MAP (pyNorm c)) := by
  rw [standardize_eq]

theorem applyRenames_cases (ps : List (String × String)) (s : String) :
    applyRenames ps s = s ∨ applyRenames ps s ∈ ps.map Prod.snd := by
  induction ps generalizing s with
  | nil => exact Or.inl rfl
  | cons p ps ih =>
    rw [applyRenames_cons]
    rcases ih (substLabel p.1 p.2 s) with h | h
    · rw [h]
      unfold substLabel
      by_cases hs : s = p.1
      · rw [if_pos hs, List.map_cons]
        exact Or.inr (List.mem_cons_self _ _)
      · rw [if_neg hs]
        exact Or.inl rfl
    · rw [List.map_cons]
      exact Or.inr (List.mem_cons_of_mem _ h)

theorem applyRenames_not_domain (ps : List (String × String)) (s : String)
    (h : s ∉ ps.map Prod.fst) : applyRenames ps s = s := by
  induction ps generalizing s with
  | nil => rfl
  | cons p ps ih =>
    rw [applyRenames_cons]
    rw [List.map_cons] at h
    have h1 : s ≠ p.1 := fun he => h (by rw [he]; exact List.mem_cons_self _ _)
    have h2 : s ∉ ps.map Prod.fst := fun hm => h (List.mem_cons_of_mem _ hm)
    unfold substLabel
    rw [if_neg h1]
    exact ih s h2

theorem targets_pyNorm_fixed : ∀ x ∈ RENAME_MAP.map Prod.snd, pyNorm x = x := by decide

theorem targets_not_domain :
    ∀ x ∈ RENAME_MAP.map Prod.snd, x ∉ RENAME_MAP.map Prod.fst := by decide

theorem targets_canonical : ∀ x ∈ RENAME_MAP.map Prod.snd, x ∈ CANONICAL_SCHEMA := by decide

theorem applyRenames_pyNorm_idem (a : String) :
    applyRenames RENAME_MAP (pyNorm (applyRenames RENAME_MAP (pyNorm a))) =
      applyRenames RENAME_MAP (pyNorm a) := by
  rcases applyRenames_cases RENAME_MAP (pyNorm a) with h | h
  · rw [h, pyNorm_idem]
    exact h
  · rw [targets_pyNorm_fixed _ h,
      applyRenames_not_domain RENAME_MAP _ (targets_not_domain _ h)]

/-- Claim C8: for every input table, the output column names of the Schema
Normalizer are canonical names or pass-through normalizations of input
names, no row values are modified, and applying the Normalizer twice yields
the same result as applying it once. -/
theorem normalizer_subset_idempotent (t : Table) :
    (standardize_columns t).rows = t.rows ∧
    standardize_columns (standardize_columns t) = standardize_columns t ∧
    ∀ c ∈ (standardize_columns t).cols,
      c ∈ CANONICAL_SCHEMA ∨ ∃ c0 ∈ t.cols, c = pyNorm c0 := by
  refine ⟨by rw [standardize_eq], ?_, ?_⟩
  · rw [standardize_eq t, standardize_eq]
    congr 1
    rw [map_map_lam]
    exact List.map_congr_left (fun a _ => applyRenames_pyNorm_idem a)
  · intro c hc
    rw [standardize_cols_eq] at hc
    obtain ⟨c0, hc0, hce⟩ := List.mem_map.mp hc
    rcases applyRenames_cases RENAME_MAP (pyNorm c0) with h | h
    · exact Or.inr ⟨c0, hc0, by rw [← hce, h]⟩
    · exact Or.inl (by rw [← hce]; exact targets_canonical _ h)

/-- Witness for C8 at a concrete table: a recognized spaced label, an
already-canonical label, and an unrecognized label. -/
theorem normalizer_subset_idempotent_w :
    (standardize_columns ⟨[" Item Code ", "YEAR", "junk col"], [[Val.num 1, Val.num 2, Val.na]]⟩).rows =
      [[Val.num 1, Val.num 2, Val.na]] ∧
    standardize_columns (standardize_columns ⟨[" Item Code ", "YEAR", "junk col"],
        [[Val.num 1, Val.num 2, Val.na]]⟩) =
      standardize_columns ⟨[" Item Code ", "YEAR", "junk col"], [[Val.num 1, Val.num 2, Val.na]]⟩ ∧
    ∀ c ∈ (standardize_columns ⟨[" Item Code ", "YEAR", "junk col"],
        [[Val.num 1, Val.num 2, Val.na]]⟩).cols,
      c ∈ CANONICAL_SCHEMA ∨
        ∃ c0 ∈ [" Item Code ", "YEAR", "junk col"], c = pyNorm c0 :=
  normalizer_subset_idempotent ⟨[" Item Code ", "YEAR", "junk col"], [[Val.num 1, Val.num 2, Val.na]]⟩

/-- Claim C9 counterexample: the Normalizer mutates the table passed to it
(`df.columns = cols` and `rename(inplace=True)` act on the caller's frame),
so the argument is not unchanged after the stage returns. -/
theorem normalizer_mutates_argument :
    standardize_columns_argAfter ⟨[" Year "], [[Val.str "a"]]⟩ ≠
      (⟨[" Year "], [[Val.str "a"]]⟩ : Table) := by decide

/-- Claim C9 amended: preprocess (which copies its input), the Filter Engine
and the Aggregator leave their argument unchanged, but the Normalizer
returns its own (renamed) argument, so the frame passed to it is the renamed
table after the call. -/
theorem stages_pure_except_normalizer (t : Table) :
    preprocess_argAfter t = t ∧ apply_filters_argAfter t = t ∧
    kpi_block_argAfter t = t ∧
    standardize_columns_argAfter t = standardize_columns t :=
  ⟨rfl, rfl, rfl, rfl⟩

/-! Helper lemmas: indices, cells and guarded column updates. -/

theorem idxOf_lt_length (cols : List String) (c : String) (h : c ∈ cols) :
    idxOf cols c < cols.length := by
  induction cols with
  | nil => cases h
  | cons a cols ih =>
    unfold idxOf
    by_cases ha : a = c
    · rw [if_pos ha]
      simp
    · rw [if_neg ha]
      rcases List.mem_cons.mp h with he | hm
      · exact absurd he.symm ha
      · simpa using ih hm

theorem idxOf_eq_length_of_not_mem (cols : List String) (c : String) (h : c ∉ cols) :
    idxOf cols c = cols.length := by
  induction cols with
  | nil => rfl
  | cons a cols ih =>
    unfold idxOf
    have ha : a ≠ c := fun he => h (he ▸ List.mem_cons_self a cols)
    rw [if_neg ha, List.length_cons, ih (fun hm => h (List.mem_cons_of_mem a hm))]

theorem getD_idxOf (cols : List String) (c : String) (h : c ∈ cols) (d : String) :
    cols.getD (idxOf cols c) d = c := by
  induction cols with
  | nil => cases h
  | cons a cols ih =>
    unfold idxOf
    by_cases ha : a = c
    · rw [if_pos ha]
      exact ha
    · rw [if_neg ha]
      rcases List.mem_cons.mp h with he | hm
      · exact absurd he.symm ha
      · exact ih hm

theorem idxOf_ne (cols : List String) (c c2 : String) (hc : c ∈ cols) (hc2 : c2 ∈ cols)
    (hne : c ≠ c2) : idxOf cols c ≠ idxOf cols c2 := fun he =>
  hne (by rw [← getD_idxOf cols c hc "", he, getD_idxOf cols c2 hc2 ""])

theorem cellAt_set_self (t : Table) (c : String) (r : List Val) (v : Val)
    (hc : c ∈ t.cols) (hlen : r.length = t.cols.length) :
    cellAt t c (r.set (idxOf t.cols c) v) = v := by
  unfold cellAt
  rw [List.getD_eq_getElem?_getD,
    List.getElem?_set_self (by rw [hlen]; exact idxOf_lt_length _ _ hc)]
  rfl

theorem cellAt_set_ne (t : Table) (c c2 : String) (r : List Val) (v : Val)
    (hc : c ∈ t.cols) (hc2 : c2 ∈ t.cols) (hne : c2 ≠ c) :
    cellAt t c (r.set (idxOf t.cols c2) v) = cellAt t c r := by
  unfold cellAt
  rw [List.getD_eq_getElem?_getD, List.getElem?_set_ne (idxOf_ne _ _ _ hc2 hc hne),
    ← List.getD_eq_getElem?_getD]

theorem cellAt_set_absent (t : Table) (c c2 : String) (r : List Val) (v : Val)
    (hc2 : c2 ∉ t.cols) (hlen : r.length = t.cols.length) :
    cellAt t c (r.set (idxOf t.cols c2) v) = cellAt t c r := by
  have hnoop : r.set (idxOf t.cols c2) v = r :=
    List.set_eq_of_length_le (by rw [hlen, idxOf_eq_length_of_not_mem _ _ hc2])
  rw [hnoop]

theorem mapCol_cols (t : Table) (c : String) (f : Val → Val) : (mapCol t c f).cols = t.cols := rfl

theorem Rect_mapCol (t : Table) (c : String) (f : Val → Val) (hr : Rect t) :
    Rect (mapCol t c f) := by
  intro r hrm
  obtain ⟨r0, hr0, hre⟩ := List.mem_map.mp hrm
  rw [← hre]
  show (r0.set _ _).length = t.cols.length
  rw [List.length_set]
  exact hr r0 hr0

theorem cellAt_mapCol (t : Table) (c : String) (f : Val → Val) (r : List Val) :
    cellAt (mapCol t c f) c r = cellAt t c r := rfl

theorem column_mapCol_self (t : Table) (c : String) (f : Val → Val)
    (hc : c ∈ t.cols) (hr : Rect t) :
    column (mapCol t c f) c = (column t c).map f := by
  unfold column mapCol
  rw [map_map_lam, map_map_lam]
  refine List.map_congr_left ?_
  intro r hrm
  show cellAt t c (r.set (idxOf t.cols c) (f (cellAt t c r))) = f (cellAt t c r)
  exact cellAt_set_self t c r _ hc (hr r hrm)

theorem column_mapCol_ne (t : Table) (c c2 : String) (f : Val → Val)
    (hc2 : c2 ∈ t.cols) (hne : c2 ≠ c) (hr : Rect t) :
    column (mapCol t c2 f) c = column t c := by
  unfold column mapCol
  rw [map_map_lam]
  refine List.map_congr_left ?_
  intro r hrm
  show cellAt t c (r.set (idxOf t.cols c2) (f (cellAt t c2 r))) = cellAt t c r
  by_cases hc : c ∈ t.cols
  · exact cellAt_set_ne t c c2 r _ hc hc2 hne
  · unfold cellAt
    rw [List.getD_eq_default _ _ (by
        rw [idxOf_eq_length_of_not_mem _ _ hc, List.length_set, hr r hrm]),
      List.getD_eq_default _ _ (by rw [idxOf_eq_length_of_not_mem _ _ hc, hr r hrm])]

theorem stepCol_cols (f : Val → Val) (tb : Table) (c : String) :
    (stepCol f tb c).cols = tb.cols := by
  unfold stepCol
  split
  · rfl
  · rfl

theorem Rect_stepCol (f : Val → Val) (tb : Table) (c : String) (hr : Rect tb) :
    Rect (stepCol f tb c) := by
  unfold stepCol
  split
  · exact Rect_mapCol _ _ _ hr
  · exact hr

theorem stepFold_cols (f : Val → Val) (names : List String) (t : Table) :
    (names.foldl (stepCol f) t).cols = t.cols := by
  induction names generalizing t with
  | nil => rfl
  | cons c names ih => rw [List.foldl_cons, ih, stepCol_cols]

theorem Rect_stepFold (f : Val → Val) (names : List String) (t : Table) (hr : Rect t) :
    Rect (names.foldl (stepCol f) t) := by
  induction names generalizing t with
  | nil => exact hr
  | cons c names ih => exact ih _ (Rect_stepCol _ _ _ hr)

theorem colAll_stepCol (P : Val → Bool) (f : Val → Val)
    (hpres : ∀ v, P v = true → P (f v) = true)
    (tb : Table) (c x : String) (hr : Rect tb) (hx : colAll P tb x) :
    colAll P (stepCol f tb c) x := by
  unfold stepCol
  split
  · next hc =>
    by_cases hxc : c = x
    · subst hxc
      intro v hv
      rw [column_mapCol_self _ _ _ hc hr] at hv
      obtain ⟨w, hw, hwe⟩ := List.mem_map.mp hv
      rw [← hwe]
      exact hpres w (hx w hw)
    · intro v hv
      rw [column_mapCol_ne _ _ _ _ hc hxc hr] at hv
      exact hx v hv
  · exact hx

theorem colAll_stepFold (P : Val → Bool) (f : Val → Val)
    (hpres : ∀ v, P v = true → P (f v) = true)
    (names : List String) (t : Table) (x : String) (hr : Rect t) (hx : colAll P t x) :
    colAll P (names.foldl (stepCol f) t) x := by
  induction names generalizing t with
  | nil => exact hx
  | cons c names ih =>
    exact ih _ (Rect_stepCol _ _ _ hr) (colAll_stepCol P f hpres _ _ _ hr hx)

theorem colAll_stepFold_hit (P : Val → Bool) (f : Val → Val)
    (hall : ∀ v, P (f v) = true)
    (names : List String) (t : Table) (x : String) (hr : Rect t)
    (hx : x ∈ names) (hc : x ∈ t.cols) :
    colAll P (names.foldl (stepCol f) t) x := by
  induction names generalizing t with
  | nil => cases hx
  | cons c names ih =>
    rw [List.foldl_cons]
    by_cases hxc : c = x
    · subst hxc
      refine colAll_stepFold P f (fun v _ => hall v) names _ _ (Rect_stepCol _ _ _ hr) ?_
      unfold stepCol
      rw [if_pos hc]
      intro v hv
      rw [column_mapCol_self _ _ _ hc hr] at hv
      obtain ⟨w, hw, hwe⟩ := List.mem_map.mp hv
      rw [← hwe]
      exact hall w
    · rcases List.mem_cons.mp hx with he | hm
      · exact absurd he.symm hxc
      · exact ih _ (Rect_stepCol _ _ _ hr) hm (by rw [stepCol_cols]; exact hc)

/-! Helper lemmas: the cleaning stage (Claim C2). -/

theorem to_num_numOrNa (v : Val) : numOrNa (to_num v) = true := by
  cases v with
  | na => rfl
  | num q => rfl
  | str s =>
    show numOrNa (match parseDec s with | some q => Val.num q | none => Val.na) = true
    cases parseDec s with
    | none => rfl
    | some q => rfl

theorem fillna0_isNum (v : Val) (h : numOrNa v = true) : isNum (fillna0 v) = true := by
  cases v with
  | na => rfl
  | num q => rfl
  | str s => cases h

theorem fillna0_pres_isNum (v : Val) (h : isNum v = true) : isNum (fillna0 v) = true := by
  cases v with
  | na => cases h
  | num q => rfl
  | str s => cases h

theorem fillna0_pres_numOrNa (v : Val) (h : numOrNa v = true) : numOrNa (fillna0 v) = true := by
  cases v with
  | na => rfl
  | num q => rfl
  | str s => cases h

theorem Rect_standardize (t : Table) (hr : Rect t) : Rect (standardize_columns t) := by
  rw [standardize_eq]
  intro r hrm
  show r.length = (t.cols.map (fun c => applyRenames RENAME_MAP (pyNorm c))).length
  rw [List.length_map]
  exact hr r hrm

theorem renameIf_active (t : Table) (old target : String)
    (hact : old ∈ t.cols ∧ target ∉ t.cols) :
    renameIf t old target =
      { cols := t.cols.map (fun c => if c = old then target else c), rows := t.rows } := by
  unfold renameIf
  rw [if_pos hact]

theorem renameIf_inactive (t : Table) (old target : String)
    (hact : ¬(old ∈ t.cols ∧ target ∉ t.cols)) : renameIf t old target = t := by
  unfold renameIf
  rw [if_neg hact]

theorem Rect_renameIf (t : Table) (old target : String) (hr : Rect t) :
    Rect (renameIf t old target) := by
  by_cases hact : old ∈ t.cols ∧ target ∉ t.cols
  · rw [renameIf_active t old target hact]
    intro r hrm
    show r.length = (t.cols.map _).length
    rw [List.length_map]
    exact hr r hrm
  · rw [renameIf_inactive t old target hact]
    exact hr

theorem idxOf_map_subst_target (cols : List String) (old target : String)
    (ht : target ∉ cols) :
    idxOf (cols.map (fun c => if c = old then target else c)) target = idxOf cols old := by
  induction cols with
  | nil => rfl
  | cons a cols ih =>
    have hat : a ≠ target := fun he => ht (he ▸ List.mem_cons_self a cols)
    rw [List.map_cons]
    unfold idxOf
    by_cases hao : a = old
    · rw [if_pos hao, if_pos rfl, if_pos hao]
    · rw [if_neg hao, if_neg hat, if_neg hao,
        ih (fun hm => ht (List.mem_cons_of_mem a hm))]

theorem idxOf_map_subst_other (cols : List String) (old target y : String)
    (hy1 : y ≠ old) (hy2 : y ≠ target) :
    idxOf (cols.map (fun c => if c = old then target else c)) y = idxOf cols y := by
  induction cols with
  | nil => rfl
  | cons a cols ih =>
    rw [List.map_cons]
    unfold idxOf
    by_cases hao : a = old
    · rw [if_pos hao, if_neg (fun he : target = y => hy2 he.symm),
        if_neg (fun he : a = y => hy1 (he.symm.trans hao)), ih]
    · rw [if_neg hao]
      by_cases hay : a = y
      · rw [if_pos hay, if_pos hay]
      · rw [if_neg hay, if_neg hay, ih]

theorem old_not_mem_subst (cols : List String) (old target : String) (hto : target ≠ old) :
    old ∉ cols.map (fun c => if c = old then target else c) := by
  intro hm
  obtain ⟨x, _, he⟩ := List.mem_map.mp hm
  by_cases hx : x = old
  · rw [if_pos hx] at he
    exact hto he
  · rw [if_neg hx] at he
    exact hx he

theorem mem_of_mem_subst (cols : List String) (old target y : String) (hy2 : y ≠ target)
    (hm : y ∈ cols.map (fun c => if c = old then target else c)) : y ∈ cols := by
  obtain ⟨x, hx, he⟩ := List.mem_map.mp hm
  by_cases hxo : x = old
  · rw [if_pos hxo] at he
    exact absurd he.symm hy2
  · rw [if_neg hxo] at he
    rw [← he]
    exact hx

theorem column_renameIf_target (t : Table) (old target : String)
    (hact : old ∈ t.cols ∧ target ∉ t.cols) :
    column (renameIf t old target) target = column t old := by
  rw [renameIf_active t old target hact]
  unfold column cellAt
  refine List.map_congr_left ?_
  intro r _
  show r.getD (idxOf (t.cols.map _) target) Val.na = r.getD (idxOf t.cols old) Val.na
  rw [idxOf_map_subst_target t.cols old target hact.2]

theorem column_renameIf_other (t : Table) (old target y : String)
    (hy1 : y ≠ old) (hy2 : y ≠ target) :
    column (renameIf t old target) y = column t y := by
  by_cases hact : old ∈ t.cols ∧ target ∉ t.cols
  · rw [renameIf_active t old target hact]
    unfold column cellAt
    refine List.map_congr_left ?_
    intro r _
    show r.getD (idxOf (t.cols.map _) y) Val.na = r.getD (idxOf t.cols y) Val.na
    rw [idxOf_map_subst_other t.cols old target y hy1 hy2]
  · rw [renameIf_inactive t old target hact]

theorem renameIf_colAll_inv (P : Val → Bool) (t : Table) (old target : String)
    (hto : target ≠ old) (S : List String) (hold : old ∈ S)
    (hQ : ∀ y ∈ S, y ∈ t.cols → colAll P t y) :
    ∀ y ∈ S, y ∈ (renameIf t old target).cols → colAll P (renameIf t old target) y := by
  intro y hyS hyC
  by_cases hact : old ∈ t.cols ∧ target ∉ t.cols
  · by_cases hyt : y = target
    · intro v hv
      rw [hyt, column_renameIf_target t old target hact] at hv
      exact hQ old hold hact.1 v hv
    · by_cases hyo : y = old
      · rw [renameIf_active t old target hact, hyo] at hyC
        exact absurd hyC (old_not_mem_subst t.cols old target hto)
      · intro v hv
        rw [column_renameIf_other t old target y hyo hyt] at hv
        refine hQ y hyS ?_ v hv
        rw [renameIf_active t old target hact] at hyC
        exact mem_of_mem_subst t.cols old target y hyt hyC
  · rw [renameIf_inactive t old target hact] at hyC ⊢
    exact hQ y hyS hyC

theorem fillFold_isNum (names : List String) (t : Table) (x : String) (hr : Rect t)
    (hx : x ∈ names) (hc : x ∈ t.cols)
    (hall : ∀ y ∈ names, y ∈ t.cols → colAll numOrNa t y) :
    colAll isNum (names.foldl (stepCol fillna0) t) x := by
  induction names generalizing t with
  | nil => cases hx
  | cons c names ih =>
    rw [List.foldl_cons]
    have hrc := Rect_stepCol fillna0 t c hr
    by_cases hxc : c = x
    · subst hxc
      refine colAll_stepFold isNum fillna0 fillna0_pres_isNum names _ _ hrc ?_
      unfold stepCol
      rw [if_pos hc]
      intro v hv
      rw [column_mapCol_self _ _ _ hc hr] at hv
      obtain ⟨w, hw, hwe⟩ := List.mem_map.mp hv
      rw [← hwe]
      exact fillna0_isNum w (hall c (List.mem_cons_self c names) hc w hw)
    · rcases List.mem_cons.mp hx with he | hm
      · exact absurd he.symm hxc
      · refine ih (stepCol fillna0 t c) hrc hm (by rw [stepCol_cols]; exact hc) ?_
        intro y hy hyc
        exact colAll_stepCol numOrNa fillna0 fillna0_pres_numOrNa t c y hr
          (hall y (List.mem_cons_of_mem c hy) (by rwa [stepCol_cols] at hyc))

theorem coerceNumericCols_decomp (t : Table) :
    coerceNumericCols t = ["RETAIL_SALES", "RETAIL TRANSFERS", "RETAIL_TRANSFERS",
      "WAREHOUSE_SALES", "RETAIL SALES", "RETAIL TRANSFERS", "WAREHOUSE SALES"].foldl
      (stepCol to_num) t := rfl

theorem clean_stage_decomp (t : Table) :
    clean_stage t = ["RETAIL_SALES", "RETAIL_TRANSFERS", "WAREHOUSE_SALES"].foldl
      (stepCol fillna0)
      (coalesceCols (coerceNumericCols (standardize_columns t))) := rfl

theorem clean_stage_sales_num (t : Table) (hr : Rect t) :
    ∀ x ∈ ["RETAIL_SALES", "RETAIL_TRANSFERS", "WAREHOUSE_SALES"],
      x ∈ (clean_stage t).cols → colAll isNum (clean_stage t) x := by
  intro x hx hxc
  have hr0 : Rect (standardize_columns t) := Rect_standardize t hr
  have hr1 : Rect (coerceNumericCols (standardize_columns t)) := Rect_stepFold _ _ _ hr0
  have h7 : ∀ y ∈ ["RETAIL_SALES", "RETAIL TRANSFERS", "RETAIL_TRANSFERS",
      "WAREHOUSE_SALES", "RETAIL SALES", "RETAIL TRANSFERS", "WAREHOUSE SALES"],
      y ∈ (coerceNumericCols (standardize_columns t)).cols →
        colAll numOrNa (coerceNumericCols (standardize_columns t)) y := by
    intro y hy hyc
    rw [coerceNumericCols_decomp] at hyc ⊢
    refine colAll_stepFold_hit numOrNa to_num to_num_numOrNa _ _ y hr0 hy ?_
    rw [stepFold_cols] at hyc
    exact hyc
  have i1 := renameIf_colAll_inv numOrNa (coerceNumericCols (standardize_columns t))
    "RETAIL SALES" "RETAIL_SALES" (by decide) _ (by decide) h7
  have hrA : Rect (renameIf (coerceNumericCols (standardize_columns t))
      "RETAIL SALES" "RETAIL_SALES") := Rect_renameIf _ _ _ hr1
  have i2 := renameIf_colAll_inv numOrNa _ "RETAIL TRANSFERS" "RETAIL_TRANSFERS"
    (by decide) _ (by decide) i1
  have hrB : Rect (renameIf (renameIf (coerceNumericCols (standardize_columns t))
      "RETAIL SALES" "RETAIL_SALES") "RETAIL TRANSFERS" "RETAIL_TRANSFERS") :=
    Rect_renameIf _ _ _ hrA
  have i3 := renameIf_colAll_inv numOrNa _ "WAREHOUSE SALES" "WAREHOUSE_SALES"
    (by decide) _ (by decide) i2
  have hrC : Rect (coalesceCols (coerceNumericCols (standardize_columns t))) :=
    Rect_renameIf _ _ _ hrB
  rw [clean_stage_decomp] at hxc ⊢
  rw [stepFold_cols] at hxc
  refine fillFold_isNum _ _ x hrC hx hxc ?_
  intro y hy hyc
  refine i3 y ?_ hyc
  simp only [List.mem_cons, List.not_mem_nil, or_false] at hy
  rcases hy with rfl | rfl | rfl <;> decide

unseal Rat.add Rat.mul Rat.sub Rat.inv in
/-- Claim C2: after Type Coercion and Cleaning, every cell of RETAIL_SALES,
RETAIL_TRANSFERS and WAREHOUSE_SALES is a (non-missing) number — the stage is
a total function, so no cell value makes it raise; concretely, an
unparseable "abc" becomes 0, a parseable "-5" passes through as -5, and a
missing cell becomes 0. -/
theorem cleaning_sales_nonnull (t : Table) (hr : Rect t) :
    (∀ c ∈ ["RETAIL_SALES", "RETAIL_TRANSFERS", "WAREHOUSE_SALES"],
      c ∈ (clean_stage t).cols → ∀ v ∈ column (clean_stage t) c, isNum v = true) ∧
    column (clean_stage ⟨["RETAIL SALES"], [[Val.str "abc"], [Val.str "-5"], [Val.na]]⟩)
      "RETAIL_SALES" = [Val.num 0, Val.num (-5), Val.num 0] := by
  constructor
  · exact fun c hc hcc => clean_stage_sales_num t hr c hc hcc
  · decide

unseal Rat.add Rat.mul Rat.sub Rat.inv in
/-- Witness for C2 at the concrete three-row table of the spec test. -/
theorem cleaning_sales_nonnull_w :
    Rect (⟨["RETAIL SALES"], [[Val.str "abc"], [Val.str "-5"], [Val.na]]⟩ : Table) ∧
    ((∀ c ∈ ["RETAIL_SALES", "RETAIL_TRANSFERS", "WAREHOUSE_SALES"],
      c ∈ (clean_stage ⟨["RETAIL SALES"], [[Val.str "abc"], [Val.str "-5"], [Val.na]]⟩).cols →
        ∀ v ∈ column (clean_stage ⟨["RETAIL SALES"], [[Val.str "abc"], [Val.str "-5"], [Val.na]]⟩) c,
          isNum v = true) ∧
    column (clean_stage ⟨["RETAIL SALES"], [[Val.str "abc"], [Val.str "-5"], [Val.na]]⟩)
      "RETAIL_SALES" = [Val.num 0, Val.num (-5), Val.num 0]) :=
  ⟨by decide, cleaning_sales_nonnull ⟨["RETAIL SALES"], [[Val.str "abc"], [Val.str "-5"], [Val.na]]⟩
    (by decide)⟩

unseal Rat.add Rat.mul Rat.sub Rat.inv in
/-- Claim C6: each Total KPI is the plain column sum of the filtered table,
0 when the column is absent or the table is empty; concretely a cleaned
[10, 20, missing] column totals 30. -/
theorem total_kpi_sum_rule (t : Table) (c : String)
    (hc : c ∈ ["RETAIL_SALES", "RETAIL_TRANSFERS", "WAREHOUSE_SALES"]) :
    (c ∈ t.cols → total_kpi t c = pdSum (column t c)) ∧
    (c ∉ t.cols → total_kpi t c = 0) ∧
    (t.rows = [] → total_kpi t c = 0) ∧
    total_kpi (clean_stage ⟨["RETAIL SALES"], [[Val.num 10], [Val.num 20], [Val.na]]⟩)
      "RETAIL_SALES" = 30 := by
  refine ⟨?_, ?_, ?_,by decide⟩
  · intro h
    unfold total_kpi
    rw [if_pos h]
  · intro h
    unfold total_kpi
    rw [if_neg h]
    decide
  · intro h
    have hcol : column t c = [] := by
      unfold column
      rw [h]
      rfl
    unfold total_kpi
    split
    · rw [hcol]
      decide
    · decide

unseal Rat.add Rat.mul Rat.sub Rat.inv in
/-- Witness for C6: the RETAIL_SALES column of a one-row table. -/
theorem total_kpi_sum_rule_w :
    ("RETAIL_SALES" ∈ ["RETAIL_SALES", "RETAIL_TRANSFERS", "WAREHOUSE_SALES"]) ∧
    (("RETAIL_SALES" ∈ (⟨["RETAIL_SALES"], [[Val.num 7]]⟩ : Table).cols →
      total_kpi ⟨["RETAIL_SALES"], [[Val.num 7]]⟩ "RETAIL_SALES" =
        pdSum (column ⟨["RETAIL_SALES"], [[Val.num 7]]⟩ "RETAIL_SALES")) ∧
    ("RETAIL_SALES" ∉ (⟨["RETAIL_SALES"], [[Val.num 7]]⟩ : Table).cols →
      total_kpi ⟨["RETAIL_SALES"], [[Val.num 7]]⟩ "RETAIL_SALES" = 0) ∧
    ((⟨["RETAIL_SALES"], [[Val.num 7]]⟩ : Table).rows = [] →
      total_kpi ⟨["RETAIL_SALES"], [[Val.num 7]]⟩ "RETAIL_SALES" = 0) ∧
    total_kpi (clean_stage ⟨["RETAIL SALES"], [[Val.num 10], [Val.num 20], [Val.na]]⟩)
      "RETAIL_SALES" = 30) :=
  ⟨by decide, total_kpi_sum_rule ⟨["RETAIL_SALES"], [[Val.num 7]]⟩ "RETAIL_SALES" (by decide)⟩

unseal Rat.add Rat.mul Rat.sub Rat.inv in
/-- Claim C5 (code bug): an input with YEAR and MONTH but no sales columns
preprocesses cleanly, yet kpi_block raises a KeyError on
`filtered.groupby("MONTH_YEAR")["RETAIL_SALES"]` instead of degrading to
zero-valued KPIs. -/
theorem kpi_missing_sales_keyerror :
    preprocess ⟨["YEAR", "MONTH"], [[Val.num 2023, Val.num 1]]⟩ =
      .ok ⟨["YEAR", "MONTH", "MONTH_YEAR"], [[Val.num 2023, Val.num 1, Val.str "2023-01"]]⟩ ∧
    kpi_block ⟨["YEAR", "MONTH", "MONTH_YEAR"], [[Val.num 2023, Val.num 1, Val.str "2023-01"]]⟩ =
      .error "KeyError: Columns not found RETAIL_SALES" :=
  ⟨by decide, by decide⟩

unseal Rat.add Rat.mul Rat.sub Rat.inv in
/-- Claim C1 counterexample: a parseable MONTH outside 1-12, or a
non-positive YEAR, makes the Period Key Builder raise (pd.to_datetime cannot
assemble the date); the row is not silently dropped. -/
theorem period_out_of_range_raises :
    periodStage ⟨["YEAR", "MONTH"], [[Val.num 2023, Val.num 13]]⟩ =
      .error "ValueError: cannot assemble the datetimes" ∧
    periodStage ⟨["YEAR", "MONTH"], [[Val.num 0, Val.num 5]]⟩ =
      .error "ValueError: cannot assemble the datetimes" :=
  ⟨by decide, by decide⟩

unseal Rat.add Rat.mul Rat.sub Rat.inv in
/-- Claim C3 counterexample: on an empty table that has MONTH_YEAR but not
RETAIL_SALES (the preprocess output of a header-only YEAR/MONTH input),
kpi_block raises a KeyError instead of reporting the 0.0 the claim requires
for an empty table. -/
theorem kpi_avg_empty_raises :
    preprocess ⟨["YEAR", "MONTH"], []⟩ = .ok ⟨["YEAR", "MONTH", "MONTH_YEAR"], []⟩ ∧
    kpi_block ⟨["YEAR", "MONTH", "MONTH_YEAR"], []⟩ =
      .error "KeyError: Columns not found RETAIL_SALES" :=
  ⟨by decide, by decide⟩

/-- Claim C4 counterexample: a non-empty year selection applied to a table
without a YEAR column raises a KeyError (the year filter has no presence
guard), instead of returning a subset of rows. -/
theorem year_filter_keyerror :
    apply_filters ⟨["SUPPLIER"], [[Val.str "A"]]⟩ [2022] [] [] =
      .error "KeyError: YEAR" := by decide

unseal Rat.add Rat.mul Rat.sub Rat.inv in
/-- Claim C7 counterexample: a post-Period-Key-Builder table whose YEAR
column still contains a missing value (possible because the builder only
runs when MONTH is also present) loses that row under the full default
selection: NaN never appears among the observed years, so the NaN row is
filtered away and the round trip is not a no-op. -/
theorem full_selection_drops_na_year :
    preprocess ⟨["YEAR"], [[Val.num 2022], [Val.na]]⟩ =
      .ok ⟨["YEAR"], [[Val.num 2022], [Val.na]]⟩ ∧
    filtered_full_selection ⟨["YEAR"], [[Val.num 2022], [Val.na]]⟩ =
      .ok ⟨["YEAR"], [[Val.num 2022]]⟩ ∧
    (⟨["YEAR"], [[Val.num 2022]]⟩ : Table) ≠ ⟨["YEAR"], [[Val.num 2022], [Val.na]]⟩ :=
  ⟨by decide, by decide, by decide⟩

unseal Rat.add Rat.mul Rat.sub Rat.inv in
/-! Helper lemmas: the Filter Engine (Claims C4 and C7). -/

theorem except_bind_ok {α β : Type} (a : α) (f : α → Except String β) :
    (Except.ok a : Except String α).bind f = f a := rfl

theorem filterRows_def (t : Table) (p : List Val → Bool) :
    filterRows t p = { cols := t.cols, rows := t.rows.filter p } := rfl

theorem filterRows_true (t : Table) (p : List Val → Bool)
    (hp : ∀ r ∈ t.rows, p r = true) : filterRows t p = t := by
  rw [filterRows_def, List.filter_eq_self.mpr hp]

theorem filterRows_filterRows (t : Table) (p q : List Val → Bool) :
    filterRows (filterRows t p) q = filterRows t (fun r => q r && p r) := by
  rw [filterRows_def, filterRows_def, filterRows_def, List.filter_filter]

theorem filterRows_cols (t : Table) (p : List Val → Bool) : (filterRows t p).cols = t.cols :=
  rfl

theorem cellAt_filterRows (t : Table) (p : List Val → Bool) (c : String) (r : List Val) :
    cellAt (filterRows t p) c r = cellAt t c r := rfl

theorem except_bind_ok2 {α β : Type} (a : α) (f : α → Except String β) :
    (Except.ok a : Except String α) >>= f = f a := rfl

theorem apply_filters_ok (t : Table) (ysel : List Int) (ssel tsel : List String)
    (hy : ysel ≠ [] → "YEAR" ∈ t.cols)
    (hs : ssel ≠ [] → "SUPPLIER" ∈ t.cols)
    (ht : tsel ≠ [] → "ITEM_TYPE" ∈ t.cols) :
    apply_filters t ysel ssel tsel =
      .ok (filterRows t (rowPass t ysel ssel tsel)) := by
  have hstep : ∀ (u : Table) (cond : Prop) (hd : Decidable cond) (p : List Val → Bool),
      (if cond then filterRows u p else u) =
        filterRows u (fun r => !(decide cond) || p r) := by
    intro u cond hd p
    by_cases hcond : cond
    · rw [if_pos hcond, filterRows_def, filterRows_def]
      refine congrArg _ (List.filter_congr ?_)
      intro r _
      rw [decide_eq_true hcond]
      rfl
    · rw [if_neg hcond, filterRows_def]
      have h2 : u.rows.filter (fun r => !(decide cond) || p r) = u.rows :=
        List.filter_eq_self.mpr (fun r _ => by rw [decide_eq_false hcond]; rfl)
      rw [h2]
  have hc2 : ∀ cs : List String, cs = t.cols →
      (!(decide (ssel ≠ [] ∧ "SUPPLIER" ∈ cs))) = ssel.isEmpty := by
    intro cs hu
    by_cases hss : ssel = []
    · rw [decide_eq_false (by simp [hss]), hss]
      rfl
    · rw [decide_eq_true ⟨hss, hu ▸ hs hss⟩, List.isEmpty_eq_false.mpr hss]
      rfl
  have hc3 : ∀ cs : List String, cs = t.cols →
      (!(decide (tsel ≠ [] ∧ "ITEM_TYPE" ∈ cs))) = tsel.isEmpty := by
    intro cs hu
    by_cases hts : tsel = []
    · rw [decide_eq_false (by simp [hts]), hts]
      rfl
    · rw [decide_eq_true ⟨hts, hu ▸ ht hts⟩, List.isEmpty_eq_false.mpr hts]
      rfl
  have hbool1 : ∀ z b2 b3 : Bool, (b3 && b2) = (((true || z) && b2) && b3) := by decide
  have hbool2 : ∀ py b2 b3 : Bool, ((b3 && b2) && py) = (((false || py) && b2) && b3) := by
    decide
  unfold apply_filters
  by_cases hys : ysel = []
  · rw [if_pos hys, except_bind_ok2]
    show Except.ok _ = _
    refine congrArg Except.ok ?_
    rw [hstep t _ _ _, hstep _ _ _ _, filterRows_filterRows, filterRows_def, filterRows_def]
    refine congrArg _ (List.filter_congr ?_)
    intro r _
    unfold rowPass
    rw [hc2 _ rfl, hc3 _ rfl, hys]
    exact hbool1 _ _ _
  · rw [if_neg hys, if_pos (hy hys), except_bind_ok2]
    show Except.ok _ = _
    refine congrArg Except.ok ?_
    rw [hstep _ _ _ _]
    simp only [filterRows_cols, cellAt_filterRows]
    rw [hstep _ _ _ _]
    simp only [filterRows_cols, cellAt_filterRows]
    rw [hc2 t.cols rfl, hc3 t.cols rfl, filterRows_filterRows, filterRows_filterRows,
      filterRows_def, filterRows_def]
    refine congrArg _ (List.filter_congr ?_)
    intro r _
    unfold rowPass
    rw [List.isEmpty_eq_false.mpr hys]
    exact hbool2 _ _ _

unseal Rat.add Rat.mul Rat.sub Rat.inv in
/-- Claim C10 counterexample: with a missing MONTH_YEAR cell, the groupby
excludes the row from every group, so the average of monthly totals is 0.0
and no multiple of the distinct-period count recovers the row total 5. -/
theorem avg_times_count_ne_total :
    kpi_block ⟨["MONTH_YEAR", "RETAIL_SALES"], [[Val.na, Val.num 5]]⟩ =
      .ok [("Total Retail Sales", 5), ("Total Retail Transfers", 0),
           ("Total Warehouse Sales", 0), ("Avg Monthly Retail Sales", 0)] ∧
    (0 : ℚ) *
      ((column ⟨["MONTH_YEAR", "RETAIL_SALES"], [[Val.na, Val.num 5]]⟩ "MONTH_YEAR").dedup.length : ℚ) ≠
      total_kpi ⟨["MONTH_YEAR", "RETAIL_SALES"], [[Val.na, Val.num 5]]⟩ "RETAIL_SALES" :=
  ⟨by decide, by decide⟩

/-- Claim C4 amended: whenever each dimension with a non-empty selection set
has its column present (the sidebar guarantees this, building every
selection from observed values), the Filter Engine returns exactly the rows
satisfying the AND of the per-dimension membership predicates — string
membership for supplier and item type, integer membership for year, an
empty selection constraining nothing — with the original row order and all
columns preserved; when the year selection is non-empty and YEAR is absent,
it raises a KeyError instead (see the counterexample). -/
theorem filter_engine_characterization (t : Table) (ysel : List Int)
    (ssel tsel : List String)
    (hy : ysel ≠ [] → "YEAR" ∈ t.cols)
    (hs : ssel ≠ [] → "SUPPLIER" ∈ t.cols)
    (ht : tsel ≠ [] → "ITEM_TYPE" ∈ t.cols) :
    apply_filters t ysel ssel tsel =
      .ok { cols := t.cols, rows := t.rows.filter (rowPass t ysel ssel tsel) } :=
  apply_filters_ok t ysel ssel tsel hy hs ht

unseal Rat.add Rat.mul Rat.sub Rat.inv in
/-- Witness for C4: a two-row table where row A matches the year but not the
supplier and row B matches both; only row B is returned. -/
theorem filter_engine_characterization_w :
    ((([2022] : List Int) ≠ [] →
        "YEAR" ∈ (⟨["YEAR", "SUPPLIER", "ITEM_TYPE"],
          [[Val.num 2022, Val.str "A", Val.str "X"],
           [Val.num 2022, Val.str "B", Val.str "X"]]⟩ : Table).cols) ∧
      ((["B"] : List String) ≠ [] →
        "SUPPLIER" ∈ (⟨["YEAR", "SUPPLIER", "ITEM_TYPE"],
          [[Val.num 2022, Val.str "A", Val.str "X"],
           [Val.num 2022, Val.str "B", Val.str "X"]]⟩ : Table).cols) ∧
      ((["X"] : List String) ≠ [] →
        "ITEM_TYPE" ∈ (⟨["YEAR", "SUPPLIER", "ITEM_TYPE"],
          [[Val.num 2022, Val.str "A", Val.str "X"],
           [Val.num 2022, Val.str "B", Val.str "X"]]⟩ : Table).cols)) ∧
    apply_filters ⟨["YEAR", "SUPPLIER", "ITEM_TYPE"],
        [[Val.num 2022, Val.str "A", Val.str "X"],
         [Val.num 2022, Val.str "B", Val.str "X"]]⟩ [2022] ["B"] ["X"] =
      .ok ⟨["YEAR", "SUPPLIER", "ITEM_TYPE"], [[Val.num 2022, Val.str "B", Val.str "X"]]⟩ :=
  ⟨⟨by decide, by decide, by decide⟩,
    (filter_engine_characterization _ _ _ _ (by decide) (by decide) (by decide)).trans
      (by decide)⟩

/-! Helper lemmas: the observed (full) selections of the sidebar (Claim C7). -/

theorem mem_insertLe {A : Type} (le : A → A → Bool) (a x : A) (l : List A) :
    x ∈ insertLe le a l ↔ x = a ∨ x ∈ l := by
  induction l with
  | nil => simp [insertLe]
  | cons b l ih =>
    unfold insertLe
    by_cases hle : le a b = true
    · rw [if_pos hle]
      simp
    · rw [if_neg hle]
      simp only [List.mem_cons, ih]
      constructor
      · rintro (h | h | h)
        · exact Or.inr (Or.inl h)
        · exact Or.inl h
        · exact Or.inr (Or.inr h)
      · rintro (h | h | h)
        · exact Or.inr (Or.inl h)
        · exact Or.inl h
        · exact Or.inr (Or.inr h)

theorem mem_sortLe {A : Type} (le : A → A → Bool) (x : A) (l : List A) :
    x ∈ sortLe le l ↔ x ∈ l := by
  induction l with
  | nil => simp [sortLe]
  | cons a l ih =>
    unfold sortLe
    rw [mem_insertLe, ih, List.mem_cons]

theorem mapM_ok {α β : Type} (g : α → Except String β) (h : α → β) (l : List α)
    (hg : ∀ a ∈ l, g a = .ok (h a)) : l.mapM g = .ok (l.map h) := by
  induction l with
  | nil => rfl
  | cons a l ih =>
    rw [List.mapM_cons, hg a (List.mem_cons_self a l),
      ih (fun b hb => hg b (List.mem_cons_of_mem a hb))]
    rfl

theorem pyInt_ok (v : Val) (h : intCell v = true) : pyInt v = .ok (intOf v) := by
  cases v with
  | na => cases h
  | str s => cases h
  | num q => rfl

theorem intCell_not_na (v : Val) (h : intCell v = true) : (v == Val.na) = false := by
  cases v with
  | na => cases h
  | str s => cases h
  | num q => rfl

theorem observedYears_ok (t : Table) (hY : "YEAR" ∈ t.cols)
    (hint : ∀ v ∈ column t "YEAR", intCell v = true) :
    observedYears t = .ok (sortLe (fun a b => decide (a ≤ b))
      ((((column t "YEAR").filter (fun v => !(v == Val.na))).dedup).map intOf)) := by
  unfold observedYears
  rw [if_pos hY, mapM_ok pyInt intOf _ (fun v hv => pyInt_ok v (hint v
    (List.mem_of_mem_filter (List.mem_dedup.mp hv))))]
  rfl

theorem observedStrs_empty (t : Table) (c : String) (h : c ∉ t.cols) :
    observedStrs t c = [] := by
  unfold observedStrs
  rw [if_neg h]

theorem observedStrs_mem (t : Table) (c : String) (h : c ∈ t.cols) (r : List Val)
    (hr : r ∈ t.rows) : pyStr (cellAt t c r) ∈ observedStrs t c := by
  unfold observedStrs
  rw [if_pos h, mem_sortLe, List.mem_dedup]
  exact List.mem_map.mpr ⟨cellAt t c r, List.mem_map.mpr ⟨r, hr, rfl⟩, rfl⟩

theorem yearMatch_self (q : ℚ) (hq : q.den = 1) (ys : List Int)
    (hmem : q.num.tdiv (q.den : Int) ∈ ys) : yearMatch (Val.num q) ys = true := by
  unfold yearMatch
  refine List.any_eq_true.mpr ⟨q.num, ?_, ?_⟩
  · rw [hq] at hmem
    simpa using hmem
  · rw [beq_iff_eq, (Rat.den_eq_one_iff q).mp hq]

theorem strMatch_of_mem (v : Val) (sel : List String) (h : pyStr v ∈ sel) :
    strMatch v sel = true := by
  unfold strMatch
  exact List.elem_iff.mpr h

/-- Claim C7 amended: on a post-Period-Key-Builder table whose YEAR column
(when present) holds only integral, non-missing values — which the builder
guarantees whenever it actually ran, i.e. whenever MONTH was also present —
filtering with the full observed selection returns the table unchanged.
When YEAR kept missing values (the builder skipped, MONTH absent), rows with
a missing YEAR are dropped instead (see the counterexample). -/
theorem full_selection_noop (t : Table)
    (hint : "YEAR" ∈ t.cols → ∀ v ∈ column t "YEAR", intCell v = true) :
    filtered_full_selection t = .ok t := by
  have happ : ∀ ys : List Int, (ys ≠ [] → "YEAR" ∈ t.cols) →
      (∀ r ∈ t.rows, yearMatch (cellAt t "YEAR" r) ys = true ∨ ys = []) →
      apply_filters t ys (observedStrs t "SUPPLIER") (observedStrs t "ITEM_TYPE") =
        .ok t := by
    intro ys hy hmatch
    rw [apply_filters_ok t ys _ _ hy
      (fun hne => by
        by_cases hc : "SUPPLIER" ∈ t.cols
        · exact hc
        · exact absurd (observedStrs_empty t _ hc) hne)
      (fun hne => by
        by_cases hc : "ITEM_TYPE" ∈ t.cols
        · exact hc
        · exact absurd (observedStrs_empty t _ hc) hne)]
    refine congrArg Except.ok (filterRows_true t _ ?_)
    intro r hr
    unfold rowPass
    have h1 : (ys.isEmpty || yearMatch (cellAt t "YEAR" r) ys) = true := by
      rcases hmatch r hr with h | h
      · rw [h, Bool.or_true]
      · rw [h]
        rfl
    have h2 : ∀ c : String,
        ((observedStrs t c).isEmpty || strMatch (cellAt t c r) (observedStrs t c)) = true := by
      intro c
      by_cases hc : c ∈ t.cols
      · rw [strMatch_of_mem _ _ (observedStrs_mem t c hc r hr), Bool.or_true]
      · rw [observedStrs_empty t c hc]
        rfl
    rw [h1, h2 "SUPPLIER", h2 "ITEM_TYPE"]
    rfl
  by_cases hY : "YEAR" ∈ t.cols
  · have hko := observedYears_ok t hY (hint hY)
    show (observedYears t).bind _ = _
    rw [hko, except_bind_ok]
    refine happ _ (fun _ => hY) ?_
    intro r hr
    left
    have hcell : cellAt t "YEAR" r ∈ column t "YEAR" := List.mem_map.mpr ⟨r, hr, rfl⟩
    have hic := hint hY _ hcell
    cases hv : cellAt t "YEAR" r with
    | na => rw [hv] at hic; cases hic
    | str s => rw [hv] at hic; cases hic
    | num q =>
      rw [hv] at hic hcell
      have hq : q.den = 1 := by
        have h2 : (q.den == 1) = true := hic
        exact beq_iff_eq.mp h2
      refine yearMatch_self q hq _ ?_
      rw [mem_sortLe, List.mem_map]
      refine ⟨Val.num q, ?_, rfl⟩
      rw [List.mem_dedup, List.mem_filter]
      exact ⟨hcell, by rw [intCell_not_na _ hic]; rfl⟩
  · show (observedYears t).bind _ = _
    rw [show observedYears t = .ok [] from by unfold observedYears; rw [if_neg hY],
      except_bind_ok]
    exact happ [] (fun h => absurd rfl h) (fun r _ => Or.inr rfl)

/-- Witness for C7: a table with integral years, a supplier and an item
type; the full observed selection returns it unchanged. -/
theorem full_selection_noop_w :
    ((("YEAR" ∈ (⟨["YEAR", "SUPPLIER"],
        [[Val.num 2021, Val.str "A"], [Val.num 2022, Val.str "B"]]⟩ : Table).cols) →
      ∀ v ∈ column ⟨["YEAR", "SUPPLIER"],
        [[Val.num 2021, Val.str "A"], [Val.num 2022, Val.str "B"]]⟩ "YEAR",
        intCell v = true)) ∧
    filtered_full_selection ⟨["YEAR", "SUPPLIER"],
        [[Val.num 2021, Val.str "A"], [Val.num 2022, Val.str "B"]]⟩ =
      .ok ⟨["YEAR", "SUPPLIER"], [[Val.num 2021, Val.str "A"], [Val.num 2022, Val.str "B"]]⟩ :=
  ⟨by decide, full_selection_noop _ (by decide)⟩

/-! Helper lemmas: grouped sums and the Avg Monthly KPI (Claims C3, C10). -/

theorem sum_map_ite {β : Type} [DecidableEq β] (ks : List β) (x : β) (c : ℚ)
    (hnd : ks.Nodup) (hx : x ∈ ks) :
    (ks.map (fun k => if k = x then c else 0)).sum = c := by
  induction ks with
  | nil => cases hx
  | cons a ks ih =>
    rw [List.map_cons, List.sum_cons]
    rcases List.mem_cons.mp hx with he | hm
    · rw [if_pos he.symm]
      have hnot : x ∉ ks := he ▸ (List.nodup_cons.mp hnd).1
      have hz : (ks.map (fun k => if k = x then c else 0)).sum = 0 := by
        have hmc : ks.map (fun k => if k = x then c else 0) = ks.map (fun _ => (0 : ℚ)) :=
          List.map_congr_left (fun k hk =>
            if_neg (fun hke : k = x => hnot (hke ▸ hk)))
        rw [hmc]
        simp
      rw [hz, add_zero]
    · have hax : a ≠ x := fun he2 => (List.nodup_cons.mp hnd).1 (he2 ▸ hm)
      rw [if_neg hax, ih (List.nodup_cons.mp hnd).2 hm, zero_add]

theorem sum_groups_eq_total {α β : Type} [DecidableEq β] (keyf : α → β) (f : α → ℚ) :
    ∀ (rs : List α) (ks : List β), ks.Nodup → (∀ r ∈ rs, keyf r ∈ ks) →
      (ks.map (fun k => ((rs.filter (fun a => keyf a == k)).map f).sum)).sum =
        (rs.map f).sum := by
  intro rs
  induction rs with
  | nil =>
    intro ks _ _
    simp
  | cons r rs ih =>
    intro ks hnd hmem
    have hsplit : ∀ k, (((r :: rs).filter (fun a => keyf a == k)).map f).sum =
        (if k = keyf r then f r else 0) +
          ((rs.filter (fun a => keyf a == k)).map f).sum := by
      intro k
      rw [List.filter_cons]
      by_cases hk : keyf r = k
      · rw [if_pos (by rw [beq_iff_eq]; exact hk), List.map_cons, List.sum_cons,
          if_pos hk.symm]
      · rw [if_neg (by rw [beq_iff_eq]; exact hk),
          if_neg (fun he : k = keyf r => hk he.symm), zero_add]
    calc (ks.map (fun k => (((r :: rs).filter (fun a => keyf a == k)).map f).sum)).sum
        = (ks.map (fun k => (if k = keyf r then f r else 0) +
            ((rs.filter (fun a => keyf a == k)).map f).sum)).sum := by
          exact congrArg _ (List.map_congr_left fun k _ => hsplit k)
      _ = (ks.map (fun k => if k = keyf r then f r else 0)).sum +
            (ks.map (fun k => ((rs.filter (fun a => keyf a == k)).map f).sum)).sum :=
          List.sum_map_add
      _ = f r + (rs.map f).sum := by
          rw [sum_map_ite ks (keyf r) (f r) hnd (hmem r (List.mem_cons_self r rs)),
            ih ks hnd (fun a ha => hmem a (List.mem_cons_of_mem r ha))]
      _ = ((r :: rs).map f).sum := by
          rw [List.map_cons, List.sum_cons]

theorem monthKeys_eq_dedup (t : Table) (hall : ∀ v ∈ column t "MONTH_YEAR", v ≠ Val.na) :
    monthKeys t = (column t "MONTH_YEAR").dedup := by
  unfold monthKeys
  rw [List.filter_eq_self.mpr (fun v hv => by rw [beq_false_of_ne (hall v hv)]; rfl)]

theorem cell_mem_monthKeys (t : Table) (hall : ∀ v ∈ column t "MONTH_YEAR", v ≠ Val.na)
    (r : List Val) (hr : r ∈ t.rows) : cellAt t "MONTH_YEAR" r ∈ monthKeys t := by
  have hcell : cellAt t "MONTH_YEAR" r ∈ column t "MONTH_YEAR" := List.mem_map.mpr ⟨r, hr, rfl⟩
  rw [monthKeys_eq_dedup t hall, List.mem_dedup]
  exact hcell

theorem monthlyTotals_sum (t : Table)
    (hall : ∀ v ∈ column t "MONTH_YEAR", v ≠ Val.na) :
    (monthlyTotals t).sum = pdSum (column t "RETAIL_SALES") := by
  have hshape : monthlyTotals t = (monthKeys t).map (fun k =>
      ((t.rows.filter (fun r => cellAt t "MONTH_YEAR" r == k)).map
        (fun r => valNum (cellAt t "RETAIL_SALES" r))).sum) := by
    unfold monthlyTotals groupRetailSum pdSum
    exact List.map_congr_left (fun k _ => by rw [map_map_lam])
  rw [hshape, sum_groups_eq_total (fun r => cellAt t "MONTH_YEAR" r)
    (fun r => valNum (cellAt t "RETAIL_SALES" r)) t.rows (monthKeys t)
    (List.nodup_dedup _) (cell_mem_monthKeys t hall)]
  unfold pdSum column
  rw [map_map_lam]

theorem monthlyTotals_ne_nil (t : Table)
    (hall : ∀ v ∈ column t "MONTH_YEAR", v ≠ Val.na) (hne : t.rows ≠ []) :
    monthlyTotals t ≠ [] := by
  cases hrows : t.rows with
  | nil => exact absurd hrows hne
  | cons r rs =>
    have hk : cellAt t "MONTH_YEAR" r ∈ monthKeys t :=
      cell_mem_monthKeys t hall r (by rw [hrows]; exact List.mem_cons_self r rs)
    unfold monthlyTotals
    intro hcon
    rw [List.map_eq_nil_iff] at hcon
    rw [hcon] at hk
    cases hk

/-- Claim C10 amended: for every non-empty filtered table that has both
MONTH_YEAR and RETAIL_SALES and whose MONTH_YEAR cells are all non-missing
(as the Period Key Builder guarantees for its own output), the Avg Monthly
Retail Sales KPI times the number of distinct MONTH_YEAR values equals the
Total Retail Sales KPI. -/
theorem avg_times_periods_eq_total (t : Table)
    (h1 : "MONTH_YEAR" ∈ t.cols) (h2 : "RETAIL_SALES" ∈ t.cols)
    (h3 : t.rows ≠ []) (h4 : ∀ v ∈ column t "MONTH_YEAR", v ≠ Val.na) :
    kpi_block t = .ok [("Total Retail Sales", total_kpi t "RETAIL_SALES"),
      ("Total Retail Transfers", total_kpi t "RETAIL_TRANSFERS"),
      ("Total Warehouse Sales", total_kpi t "WAREHOUSE_SALES"),
      ("Avg Monthly Retail Sales", avgMonthly t)] ∧
    avgMonthly t * ((column t "MONTH_YEAR").dedup.length : ℚ) =
      total_kpi t "RETAIL_SALES" := by
  constructor
  · unfold kpi_block
    rw [if_pos h1, if_pos h2]
  · have hlen : (monthlyTotals t).length = (column t "MONTH_YEAR").dedup.length := by
      unfold monthlyTotals
      rw [List.length_map, monthKeys_eq_dedup t h4]
    have hpos : (monthlyTotals t).length ≠ 0 := by
      intro hz
      exact monthlyTotals_ne_nil t h4 h3 (List.length_eq_zero.mp hz)
    unfold avgMonthly
    rw [if_pos hpos, ← hlen, div_mul_cancel₀ _ (by
      exact_mod_cast hpos : ((monthlyTotals t).length : ℚ) ≠ 0),
      monthlyTotals_sum t h4]
    unfold total_kpi
    rw [if_pos h2]

/-- Witness for C10: two periods with sums 100 and 300; the average 200
times the 2 distinct periods is the total 400. -/
theorem avg_times_periods_eq_total_w :
    ("MONTH_YEAR" ∈ (⟨["MONTH_YEAR", "RETAIL_SALES"],
        [[Val.str "2023-01", Val.num 100], [Val.str "2023-02", Val.num 150],
         [Val.str "2023-02", Val.num 150]]⟩ : Table).cols ∧
      "RETAIL_SALES" ∈ (⟨["MONTH_YEAR", "RETAIL_SALES"],
        [[Val.str "2023-01", Val.num 100], [Val.str "2023-02", Val.num 150],
         [Val.str "2023-02", Val.num 150]]⟩ : Table).cols ∧
      (⟨["MONTH_YEAR", "RETAIL_SALES"],
        [[Val.str "2023-01", Val.num 100], [Val.str "2023-02", Val.num 150],
         [Val.str "2023-02", Val.num 150]]⟩ : Table).rows ≠ [] ∧
      (∀ v ∈ column ⟨["MONTH_YEAR", "RETAIL_SALES"],
        [[Val.str "2023-01", Val.num 100], [Val.str "2023-02", Val.num 150],
         [Val.str "2023-02", Val.num 150]]⟩ "MONTH_YEAR", v ≠ Val.na)) ∧
    avgMonthly ⟨["MONTH_YEAR", "RETAIL_SALES"],
        [[Val.str "2023-01", Val.num 100], [Val.str "2023-02", Val.num 150],
         [Val.str "2023-02", Val.num 150]]⟩ *
      ((column ⟨["MONTH_YEAR", "RETAIL_SALES"],
        [[Val.str "2023-01", Val.num 100], [Val.str "2023-02", Val.num 150],
         [Val.str "2023-02", Val.num 150]]⟩ "MONTH_YEAR").dedup.length : ℚ) =
      total_kpi ⟨["MONTH_YEAR", "RETAIL_SALES"],
        [[Val.str "2023-01", Val.num 100], [Val.str "2023-02", Val.num 150],
         [Val.str "2023-02", Val.num 150]]⟩ "RETAIL_SALES" :=
  ⟨⟨by decide, by decide, by decide, by decide⟩,
    (avg_times_periods_eq_total _ (by decide) (by decide) (by decide) (by decide)).2⟩

unseal Rat.add Rat.mul Rat.sub Rat.inv in
/-- Claim C3 amended: provided RETAIL_SALES is present whenever MONTH_YEAR
is (otherwise the groupby column selection raises a KeyError — see the
counterexample), the Avg Monthly Retail Sales KPI is the mean over the
distinct non-missing MONTH_YEAR values of the per-group RETAIL_SALES sums —
grouping before averaging — and is 0.0 when MONTH_YEAR is absent or the
table is empty; on the spec example (periods summing to 100 and 300) it is
200, not the per-row mean. -/
theorem kpi_avg_grouped_mean (t : Table) :
    ("MONTH_YEAR" ∉ t.cols →
      kpi_block t = .ok [("Total Retail Sales", total_kpi t "RETAIL_SALES"),
        ("Total Retail Transfers", total_kpi t "RETAIL_TRANSFERS"),
        ("Total Warehouse Sales", total_kpi t "WAREHOUSE_SALES"),
        ("Avg Monthly Retail Sales", 0)]) ∧
    ("MONTH_YEAR" ∈ t.cols → "RETAIL_SALES" ∈ t.cols →
      kpi_block t = .ok [("Total Retail Sales", total_kpi t "RETAIL_SALES"),
        ("Total Retail Transfers", total_kpi t "RETAIL_TRANSFERS"),
        ("Total Warehouse Sales", total_kpi t "WAREHOUSE_SALES"),
        ("Avg Monthly Retail Sales",
          if (monthlyTotals t).length ≠ 0 then
            (monthlyTotals t).sum / ((monthlyTotals t).length : ℚ)
          else 0)]) ∧
    (t.rows = [] → avgMonthly t = 0) ∧
    kpi_block ⟨["MONTH_YEAR", "RETAIL_SALES"],
        [[Val.str "2023-01", Val.num 100], [Val.str "2023-02", Val.num 150],
         [Val.str "2023-02", Val.num 150]]⟩ =
      .ok [("Total Retail Sales", 400), ("Total Retail Transfers", 0),
           ("Total Warehouse Sales", 0), ("Avg Monthly Retail Sales", 200)] ∧
    pdSum (column ⟨["MONTH_YEAR", "RETAIL_SALES"],
        [[Val.str "2023-01", Val.num 100], [Val.str "2023-02", Val.num 150],
         [Val.str "2023-02", Val.num 150]]⟩ "RETAIL_SALES") /
      ((⟨["MONTH_YEAR", "RETAIL_SALES"],
        [[Val.str "2023-01", Val.num 100], [Val.str "2023-02", Val.num 150],
         [Val.str "2023-02", Val.num 150]]⟩ : Table).rows.length : ℚ) ≠ 200 := by
  refine ⟨?_, ?_, ?_, by decide, by decide⟩
  · intro h
    unfold kpi_block
    rw [if_neg h]
  · intro h1 h2
    unfold kpi_block
    rw [if_pos h1, if_pos h2]
    rfl
  · intro h
    have hmt : monthlyTotals t = [] := by
      unfold monthlyTotals monthKeys column
      rw [h]
      rfl
    unfold avgMonthly
    rw [hmt]
    rfl

/-- Witness for C3 at a table lacking MONTH_YEAR: the average is 0. -/
theorem kpi_avg_grouped_mean_w :
    ("MONTH_YEAR" ∉ (⟨["RETAIL_SALES"], [[Val.num 4]]⟩ : Table).cols →
      kpi_block ⟨["RETAIL_SALES"], [[Val.num 4]]⟩ =
        .ok [("Total Retail Sales", total_kpi ⟨["RETAIL_SALES"], [[Val.num 4]]⟩ "RETAIL_SALES"),
          ("Total Retail Transfers", total_kpi ⟨["RETAIL_SALES"], [[Val.num 4]]⟩ "RETAIL_TRANSFERS"),
          ("Total Warehouse Sales", total_kpi ⟨["RETAIL_SALES"], [[Val.num 4]]⟩ "WAREHOUSE_SALES"),
          ("Avg Monthly Retail Sales", 0)]) ∧
    ("MONTH_YEAR" ∉ (⟨["RETAIL_SALES"], [[Val.num 4]]⟩ : Table).cols) :=
  ⟨(kpi_avg_grouped_mean ⟨["RETAIL_SALES"], [[Val.num 4]]⟩).1, by decide⟩

/-! Helper lemmas: the Period Key Builder (Claim C1). -/

theorem int64OK_of_year (v : Val) (h : yearOKcell v = true) : int64OK v = true := by
  unfold int64OK
  unfold yearOKcell at h
  cases htn : to_num v with
  | na => rfl
  | str s =>
    rw [htn] at h
    cases h
  | num q =>
    rw [htn] at h
    have h2 : (q.den == 1 && decide (1678 ≤ q.num) && decide (q.num ≤ 2261)) = true := h
    rw [Bool.and_eq_true, Bool.and_eq_true] at h2
    exact h2.1.1

theorem int64OK_of_month (v : Val) (h : monthOKcell v = true) : int64OK v = true := by
  unfold int64OK
  unfold monthOKcell at h
  cases htn : to_num v with
  | na => rfl
  | str s =>
    rw [htn] at h
    cases h
  | num q =>
    rw [htn] at h
    have h2 : (q.den == 1 && decide (1 ≤ q.num) && decide (q.num ≤ 12)) = true := h
    rw [Bool.and_eq_true, Bool.and_eq_true] at h2
    exact h2.1.1

theorem toInt64_ok (v : Val) (h : int64OK v = true) : toInt64 v = .ok (to_num v) := by
  unfold toInt64
  unfold int64OK at h
  cases htn : to_num v with
  | na => rfl
  | str s => rfl
  | num q =>
    rw [htn] at h
    have h2 : (q.den == 1) = true := h
    show (if q.den = 1 then (Except.ok (Val.num q) : Except String Val)
        else Except.error "TypeError: cannot safely cast non-equivalent values to Int64") =
      Except.ok (Val.num q)
    rw [if_pos (beq_iff_eq.mp h2)]

theorem coerceIntCol_ok (t : Table) (c : String)
    (h : ∀ v ∈ column t c, int64OK v = true) :
    coerceIntCol t c = .ok (mapCol t c to_num) := by
  have hrow : ∀ r ∈ t.rows,
      (toInt64 (cellAt t c r)).map (fun v => r.set (idxOf t.cols c) v) =
        .ok (r.set (idxOf t.cols c) (to_num (cellAt t c r))) := by
    intro r hrm
    rw [toInt64_ok _ (h _ (List.mem_map.mpr ⟨r, hrm, rfl⟩))]
    rfl
  show (t.rows.mapM _) >>= _ = _
  rw [mapM_ok _ _ _ hrow, except_bind_ok2]
  rfl

theorem tsOK_of_range (y m : Int) (hy1 : 1678 ≤ y) (hy2 : y ≤ 2261)
    (hm1 : 1 ≤ m) (hm2 : m ≤ 12) : tsOK y m = true := by
  unfold tsOK
  simp only [Bool.and_eq_true, Bool.or_eq_true, decide_eq_true_eq, beq_iff_eq]
  omega

theorem dropnaYM_rows (u : Table) : (dropnaYM u).rows =
    u.rows.filter (fun r =>
      !(cellAt u "YEAR" r == Val.na) && !(cellAt u "MONTH" r == Val.na)) := rfl

theorem period_key_builder_amended (t : Table) (hr : Rect t)
    (hY : "YEAR" ∈ t.cols) (hM : "MONTH" ∈ t.cols)
    (hy : ∀ v ∈ column t "YEAR", yearOKcell v = true)
    (hm : ∀ v ∈ column t "MONTH", monthOKcell v = true) :
    periodStage t = .ok (periodExpected t) := by
  have hYM : ("MONTH" : String) ≠ "YEAR" := by decide
  have hrect1 : Rect (mapCol t "YEAR" to_num) := Rect_mapCol _ _ _ hr
  have hM1 : "MONTH" ∈ (mapCol t "YEAR" to_num).cols := hM
  have hY1 : "YEAR" ∈ (mapCol t "YEAR" to_num).cols := hY
  have hcolM1 : column (mapCol t "YEAR" to_num) "MONTH" = column t "MONTH" :=
    column_mapCol_ne t "MONTH" "YEAR" to_num hY hYM.symm hr
  have hc1 : coerceIntCol t "YEAR" = .ok (mapCol t "YEAR" to_num) :=
    coerceIntCol_ok t "YEAR" (fun v hv => int64OK_of_year v (hy v hv))
  have hc2 : coerceIntCol (mapCol t "YEAR" to_num) "MONTH" =
      .ok (mapCol (mapCol t "YEAR" to_num) "MONTH" to_num) :=
    coerceIntCol_ok _ "MONTH" (fun v hv =>
      int64OK_of_month v (hm v (hcolM1 ▸ hv)))
  have hcolY : column (mapCol (mapCol t "YEAR" to_num) "MONTH" to_num) "YEAR" =
      (column t "YEAR").map to_num := by
    rw [column_mapCol_ne _ "YEAR" "MONTH" to_num hM1 hYM hrect1,
      column_mapCol_self t "YEAR" to_num hY hr]
  have hcolM : column (mapCol (mapCol t "YEAR" to_num) "MONTH" to_num) "MONTH" =
      (column t "MONTH").map to_num := by
    rw [column_mapCol_self _ "MONTH" to_num hM1 hrect1, hcolM1]
  have hvals : monthYearVals (dropnaYM (mapCol (mapCol t "YEAR" to_num) "MONTH" to_num)) =
      .ok ((dropnaYM (mapCol (mapCol t "YEAR" to_num) "MONTH" to_num)).rows.map (fun r =>
        Val.str (periodStr
          ((getInt (cellAt (dropnaYM (mapCol (mapCol t "YEAR" to_num) "MONTH" to_num))
            "YEAR" r)).getD 0)
          ((getInt (cellAt (dropnaYM (mapCol (mapCol t "YEAR" to_num) "MONTH" to_num))
            "MONTH" r)).getD 0)))) := by
    refine mapM_ok _ _ _ ?_
    intro r hrm
    rw [dropnaYM_rows] at hrm
    obtain ⟨hrtc, hpred⟩ := List.mem_filter.mp hrm
    rw [Bool.and_eq_true] at hpred
    obtain ⟨hpy, hpm⟩ := hpred
    have hyv : cellAt (mapCol (mapCol t "YEAR" to_num) "MONTH" to_num) "YEAR" r ∈
        column (mapCol (mapCol t "YEAR" to_num) "MONTH" to_num) "YEAR" :=
      List.mem_map.mpr ⟨r, hrtc, rfl⟩
    have hmv : cellAt (mapCol (mapCol t "YEAR" to_num) "MONTH" to_num) "MONTH" r ∈
        column (mapCol (mapCol t "YEAR" to_num) "MONTH" to_num) "MONTH" :=
      List.mem_map.mpr ⟨r, hrtc, rfl⟩
    rw [hcolY] at hyv
    rw [hcolM] at hmv
    obtain ⟨w, hw, hwe⟩ := List.mem_map.mp hyv
    obtain ⟨u, hu, hue⟩ := List.mem_map.mp hmv
    have hys := hy w hw
    have hms := hm u hu
    unfold yearOKcell at hys
    unfold monthOKcell at hms
    cases htw : to_num w with
    | na =>
      rw [htw] at hwe
      rw [← hwe] at hpy
      cases hpy
    | str s =>
      rw [htw] at hys
      cases hys
    | num q =>
      cases htu : to_num u with
      | na =>
        rw [htu] at hue
        rw [← hue] at hpm
        cases hpm
      | str s =>
        rw [htu] at hms
        cases hms
      | num p =>
        rw [htw] at hys
        rw [htu] at hms
        have hy2 : (q.den == 1 && decide (1678 ≤ q.num) && decide (q.num ≤ 2261)) = true := hys
        have hm2 : (p.den == 1 && decide (1 ≤ p.num) && decide (p.num ≤ 12)) = true := hms
        rw [Bool.and_eq_true, Bool.and_eq_true] at hy2 hm2
        obtain ⟨⟨hqd, hq1⟩, hq2⟩ := hy2
        obtain ⟨⟨hpd, hp1⟩, hp2⟩ := hm2
        have hgy : getInt (cellAt (dropnaYM (mapCol (mapCol t "YEAR" to_num) "MONTH" to_num))
            "YEAR" r) = some q.num := by
          show getInt (cellAt (mapCol (mapCol t "YEAR" to_num) "MONTH" to_num) "YEAR" r) = _
          rw [← hwe, htw]
          show (if q.den = 1 then some q.num else none) = some q.num
          rw [if_pos (beq_iff_eq.mp hqd)]
        have hgm : getInt (cellAt (dropnaYM (mapCol (mapCol t "YEAR" to_num) "MONTH" to_num))
            "MONTH" r) = some p.num := by
          show getInt (cellAt (mapCol (mapCol t "YEAR" to_num) "MONTH" to_num) "MONTH" r) = _
          rw [← hue, htu]
          show (if p.den = 1 then some p.num else none) = some p.num
          rw [if_pos (beq_iff_eq.mp hpd)]
        show (match getInt (cellAt (dropnaYM (mapCol (mapCol t "YEAR" to_num) "MONTH"
            to_num)) "YEAR" r), getInt (cellAt (dropnaYM (mapCol (mapCol t "YEAR" to_num)
            "MONTH" to_num)) "MONTH" r) with
          | some y, some m => if tsOK y m then Except.ok (Val.str (periodStr y m))
              else Except.error "ValueError: cannot assemble the datetimes"
          | _, _ => Except.error "ValueError: cannot assemble the datetimes") = _
        rw [hgy, hgm]
        show (if tsOK q.num p.num then Except.ok (Val.str (periodStr q.num p.num))
            else Except.error "ValueError: cannot assemble the datetimes") = _
        rw [tsOK_of_range q.num p.num (of_decide_eq_true hq1) (of_decide_eq_true hq2)
          (of_decide_eq_true hp1) (of_decide_eq_true hp2)]
        rfl
  show (if "YEAR" ∈ t.cols ∧ "MONTH" ∈ t.cols then _ else _) = _
  rw [if_pos (⟨hY, hM⟩ : "YEAR" ∈ t.cols ∧ "MONTH" ∈ t.cols)]
  show (coerceIntCol t "YEAR") >>= _ = _
  rw [hc1, except_bind_ok2]
  show (coerceIntCol (mapCol t "YEAR" to_num) "MONTH") >>= _ = _
  rw [hc2, except_bind_ok2]
  show monthYearVals _ >>= _ = _
  rw [hvals, except_bind_ok2]
  rfl

/-- Witness for C1: a valid row (2023, 1) gets the label "2023-01" and a row
with an unparseable month is dropped without an error. -/
theorem period_key_builder_amended_w :
    (Rect (⟨["YEAR", "MONTH"], [[Val.num 2023, Val.num 1], [Val.num 2023, Val.str "x"]]⟩ :
        Table) ∧
      "YEAR" ∈ (⟨["YEAR", "MONTH"],
        [[Val.num 2023, Val.num 1], [Val.num 2023, Val.str "x"]]⟩ : Table).cols ∧
      "MONTH" ∈ (⟨["YEAR", "MONTH"],
        [[Val.num 2023, Val.num 1], [Val.num 2023, Val.str "x"]]⟩ : Table).cols ∧
      (∀ v ∈ column ⟨["YEAR", "MONTH"],
        [[Val.num 2023, Val.num 1], [Val.num 2023, Val.str "x"]]⟩ "YEAR",
        yearOKcell v = true) ∧
      (∀ v ∈ column ⟨["YEAR", "MONTH"],
        [[Val.num 2023, Val.num 1], [Val.num 2023, Val.str "x"]]⟩ "MONTH",
        monthOKcell v = true)) ∧
    periodStage ⟨["YEAR", "MONTH"], [[Val.num 2023, Val.num 1], [Val.num 2023, Val.str "x"]]⟩ =
      .ok ⟨["YEAR", "MONTH", "MONTH_YEAR"], [[Val.num 2023, Val.num 1, Val.str "2023-01"]]⟩ :=
  ⟨⟨by decide, by decide, by decide, by decide, by decide⟩,
    (period_key_builder_amended _ (by decide) (by decide) (by decide) (by decide)
      (by decide)).trans (by decide)⟩

end SalesDash

